import Mathlib

/-!
# NV3051D MIPI-DSI panel driver: lifecycle model

A shallow embedding of `drivers/gpu/drm/panel/panel-newvision-nv3051d.c`.

The driver talks to three external resources: the `vdd` regulator, the
`reset` GPIO line and the DSI command channel.  Every call the driver makes
on one of them (and every sleep it takes) is appended to a chronological
`trace`; the return codes of the fallible calls come from an `Env`, indexed
by how many calls of that kind were made before.  Driver functions return
the C `int` together with the new `World`.
-/

namespace NV3051D

/-! ## External world -/

/-- One externally visible action of the driver, in the order of the C calls. -/
inductive Event where
  /-- Call of `regulator_enable(ctx->vdd)` and the code it returned. -/
  | regulator_enable (ret : Int)
  /-- Call of `regulator_disable(ctx->vdd)`. -/
  | regulator_disable
  /-- Call of `gpiod_set_value_cansleep(ctx->reset_gpio, value)`; 1 is asserted. -/
  | gpiod_set_value (value : Nat)
  /-- Call of `msleep(msecs)`: sleeps at least `msecs` milliseconds. -/
  | msleep (msecs : Nat)
  /-- Call of `usleep_range(min, max)`: sleeps at least `min` microseconds. -/
  | usleep_range (min max : Nat)
  /-- One DCS transfer attempted on the DSI channel, with the code it returned. -/
  | dsi_transfer (payload : List Nat) (ret : Int)
  deriving DecidableEq, Repr

/-- Return codes of the fallible external calls: the `n`-th call (counting
from 0 over the whole trace) of each kind.  A negative code is a failure. -/
structure Env where
  regulator_enable : Nat → Int
  dsi : Nat → Int

/-- State of the resources the driver acts on.  `reset_gpio` is the logical
level of the reset line (`none` when the board has no such line: the handle
is acquired with `devm_gpiod_get_optional`); `vdd` is the number of enables
the driver holds on the regulator. -/
structure World where
  reset_gpio : Option Nat
  vdd : Nat
  trace : List Event
  deriving DecidableEq, Repr

def Event.is_transfer : Event → Bool
  | .dsi_transfer _ _ => true
  | _ => false

def Event.is_enable : Event → Bool
  | .regulator_enable _ => true
  | _ => false

def Event.is_disable : Event → Bool
  | .regulator_disable => true
  | _ => false

def Event.is_gpio : Event → Bool
  | .gpiod_set_value _ => true
  | _ => false

/-- Guaranteed minimum duration of an event, in microseconds. -/
def Event.min_wait_us : Event → Nat
  | .msleep msecs => msecs * 1000
  | .usleep_range min _ => min
  | _ => 0

/-- Number of DSI transfers attempted so far. -/
def transfers (tr : List Event) : Nat := tr.countP Event.is_transfer

/-- Number of `regulator_enable` calls made so far. -/
def enable_calls (tr : List Event) : Nat := tr.countP Event.is_enable

/-- Number of `regulator_disable` calls made so far. -/
def disable_calls (tr : List Event) : Nat := tr.countP Event.is_disable

/-- Number of times the reset line was driven. -/
def gpio_calls (tr : List Event) : Nat := tr.countP Event.is_gpio

def Event.is_sleep : Event → Bool
  | .msleep _ => true
  | .usleep_range _ _ => true
  | _ => false

/-- Number of sleeps taken. -/
def sleep_calls (tr : List Event) : Nat := tr.countP Event.is_sleep

/-- Payloads of the transfers that reached the channel, in order. -/
def sent_payloads : List Event → List (List Nat)
  | [] => []
  | .dsi_transfer d _ :: rest => d :: sent_payloads rest
  | _ :: rest => sent_payloads rest

/-- The lifecycle state `Off`: the driver holds no enable on the power rail. -/
def World.is_off (w : World) : Prop := w.vdd = 0

instance (w : World) : Decidable w.is_off := by
  unfold World.is_off; infer_instance

/-- The lifecycle state `On`, as a successful `prepare` from `Off` leaves it:
the driver holds one enable on the power rail. -/
def World.is_on (w : World) : Prop := w.vdd = 1

instance (w : World) : Decidable w.is_on := by
  unfold World.is_on; infer_instance

/-! ## Kernel primitives used by the driver -/

/-- Modelled from the spec: `regulator_enable` (kernel regulator core, not in
this file).  Enables the power rail; on failure reports the error and leaves
the rail unchanged. -/
def regulator_enable (env : Env) (w : World) : Int × World :=
  let ret := env.regulator_enable (enable_calls w.trace)
  (ret, { w with vdd := if ret < 0 then w.vdd else w.vdd + 1,
                 trace := w.trace ++ [Event.regulator_enable ret] })

/-- Modelled from the spec: `regulator_disable` (kernel regulator core, not in
this file).  Disables the power rail, dropping one enable; with no enable
held the count stays 0.  The driver ignores its return value. -/
def regulator_disable (w : World) : World :=
  { w with vdd := w.vdd - 1, trace := w.trace ++ [Event.regulator_disable] }

/-- Modelled from the spec: `gpiod_set_value_cansleep` (gpiolib, not in this
file).  Drives the reset line to `value`; a no-op on the line when the
optional handle is absent. -/
def gpiod_set_value_cansleep (value : Nat) (w : World) : World :=
  { w with reset_gpio := w.reset_gpio.map (fun _ => value),
           trace := w.trace ++ [Event.gpiod_set_value value] }

/-- Sleep of at least `msecs` milliseconds (`linux/delay.h`). -/
def msleep (msecs : Nat) (w : World) : World :=
  { w with trace := w.trace ++ [Event.msleep msecs] }

/-- Sleep of at least `min` microseconds (`linux/delay.h`). -/
def usleep_range (min max : Nat) (w : World) : World :=
  { w with trace := w.trace ++ [Event.usleep_range min max] }

/-- Modelled from the spec: `mipi_dsi_dcs_write_buffer` (DRM MIPI-DSI core,
not in this file), the channel's `send`: one transfer of `payload`, which
can fail. -/
def mipi_dsi_dcs_write_buffer (env : Env) (payload : List Nat) (w : World) : Int × World :=
  let ret := env.dsi (transfers w.trace)
  (ret, { w with trace := w.trace ++ [Event.dsi_transfer payload ret] })

def MIPI_DCS_ENTER_SLEEP_MODE : Nat := 0x10
def MIPI_DCS_EXIT_SLEEP_MODE : Nat := 0x11
def MIPI_DCS_SET_DISPLAY_OFF : Nat := 0x28
def MIPI_DCS_SET_DISPLAY_ON : Nat := 0x29

/-- Modelled from the spec: the four standard protocol commands
(`mipi_dsi_dcs_exit_sleep_mode` and its siblings in the DRM MIPI-DSI core,
not in this file): send the bare command; a failure is returned, a success
is 0. -/
def mipi_dsi_dcs_short (env : Env) (cmd : Nat) (w : World) : Int × World :=
  let r := mipi_dsi_dcs_write_buffer env [cmd] w
  if r.1 < 0 then r else (0, r.2)

def mipi_dsi_dcs_exit_sleep_mode (env : Env) (w : World) : Int × World :=
  mipi_dsi_dcs_short env MIPI_DCS_EXIT_SLEEP_MODE w

def mipi_dsi_dcs_enter_sleep_mode (env : Env) (w : World) : Int × World :=
  mipi_dsi_dcs_short env MIPI_DCS_ENTER_SLEEP_MODE w

def mipi_dsi_dcs_set_display_on (env : Env) (w : World) : Int × World :=
  mipi_dsi_dcs_short env MIPI_DCS_SET_DISPLAY_ON w

def mipi_dsi_dcs_set_display_off (env : Env) (w : World) : Int × World :=
  mipi_dsi_dcs_short env MIPI_DCS_SET_DISPLAY_OFF w

/-- Modelled from the spec: a run of consecutive `mipi_dsi_dcs_write_seq(dsi, ...)`
statements (the macro is in `drm_mipi_dsi.h`, not in this file).  Each
statement sends its bytes as one transfer; on the first failing send the
enclosing function returns that error at once; past the last statement
control reaches the function's `return 0`. -/
def mipi_dsi_dcs_write_seq (env : Env) : List (List Nat) → World → Int × World
  | [], w => (0, w)
  | d :: rest, w =>
    let r := mipi_dsi_dcs_write_buffer env d w
    if r.1 < 0 then r else mipi_dsi_dcs_write_seq env rest r.2

/-! ## Vendor init sequences -/

/-- The `mipi_dsi_dcs_write_seq` statements of `panel_nv3051d_init_sequence`,
in source order. -/
def panel_nv3051d_init_sequence_cmds : List (List Nat) := [
  [0xFF, 0x30], [0xFF, 0x52], [0xFF, 0x01], [0xE3, 0x00], [0x03, 0x40], [0x04, 0x00],
  [0x05, 0x03], [0x24, 0x12], [0x25, 0x1E], [0x26, 0x28], [0x27, 0x52], [0x28, 0x57],
  [0x29, 0x01], [0x2A, 0xDF], [0x38, 0x9C], [0x39, 0xA7], [0x3A, 0x53], [0x44, 0x00],
  [0x49, 0x3C], [0x59, 0xFE], [0x5C, 0x00], [0x91, 0x77], [0x92, 0x77], [0xA0, 0x55],
  [0xA1, 0x50], [0xA4, 0x9C], [0xA7, 0x02], [0xA8, 0x01], [0xA9, 0x01], [0xAA, 0xFC],
  [0xAB, 0x28], [0xAC, 0x06], [0xAD, 0x06], [0xAE, 0x06], [0xAF, 0x03], [0xB0, 0x08],
  [0xB1, 0x26], [0xB2, 0x28], [0xB3, 0x28], [0xB4, 0x33], [0xB5, 0x08], [0xB6, 0x26],
  [0xB7, 0x08], [0xB8, 0x26], [0xFF, 0x30], [0xFF, 0x52], [0xFF, 0x02], [0xB1, 0x0E],
  [0xD1, 0x0E], [0xB4, 0x29], [0xD4, 0x2B], [0xB2, 0x0C], [0xD2, 0x0A], [0xB3, 0x28],
  [0xD3, 0x28], [0xB6, 0x11], [0xD6, 0x0D], [0xB7, 0x32], [0xD7, 0x30], [0xC1, 0x04],
  [0xE1, 0x06], [0xB8, 0x0A], [0xD8, 0x0A], [0xB9, 0x01], [0xD9, 0x01], [0xBD, 0x13],
  [0xDD, 0x13], [0xBC, 0x11], [0xDC, 0x11], [0xBB, 0x0F], [0xDB, 0x0F], [0xBA, 0x0F],
  [0xDA, 0x0F], [0xBE, 0x18], [0xDE, 0x18], [0xBF, 0x0F], [0xDF, 0x0F], [0xC0, 0x17],
  [0xE0, 0x17], [0xB5, 0x3B], [0xD5, 0x3C], [0xB0, 0x0B], [0xD0, 0x0C], [0xFF, 0x30],
  [0xFF, 0x52], [0xFF, 0x03], [0x00, 0x2A], [0x01, 0x2A], [0x02, 0x2A], [0x03, 0x2A],
  [0x04, 0x61], [0x05, 0x80], [0x06, 0xC7], [0x07, 0x01], [0x08, 0x82], [0x09, 0x83],
  [0x30, 0x2A], [0x31, 0x2A], [0x32, 0x2A], [0x33, 0x2A], [0x34, 0x61], [0x35, 0xC5],
  [0x36, 0x80], [0x37, 0x23], [0x40, 0x82], [0x41, 0x83], [0x42, 0x80], [0x43, 0x81],
  [0x44, 0x11], [0x45, 0xF2], [0x46, 0xF1], [0x47, 0x11], [0x48, 0xF4], [0x49, 0xF3],
  [0x50, 0x02], [0x51, 0x01], [0x52, 0x04], [0x53, 0x03], [0x54, 0x11], [0x55, 0xF6],
  [0x56, 0xF5], [0x57, 0x11], [0x58, 0xF8], [0x59, 0xF7], [0x7E, 0x02], [0x7F, 0x80],
  [0xE0, 0x5A], [0xB1, 0x00], [0xB4, 0x0E], [0xB5, 0x0F], [0xB6, 0x04], [0xB7, 0x07],
  [0xB8, 0x06], [0xB9, 0x05], [0xBA, 0x0F], [0xC7, 0x00], [0xCA, 0x0E], [0xCB, 0x0F],
  [0xCC, 0x04], [0xCD, 0x07], [0xCE, 0x06], [0xCF, 0x05], [0xD0, 0x0F], [0x81, 0x0F],
  [0x84, 0x0E], [0x85, 0x0F], [0x86, 0x07], [0x87, 0x04], [0x88, 0x05], [0x89, 0x06],
  [0x8A, 0x00], [0x97, 0x0F], [0x9A, 0x0E], [0x9B, 0x0F], [0x9C, 0x07], [0x9D, 0x04],
  [0x9E, 0x05], [0x9F, 0x06], [0xA0, 0x00], [0xFF, 0x30], [0xFF, 0x52], [0xFF, 0x02],
  [0x01, 0x01], [0x02, 0xDA], [0x03, 0xBA], [0x04, 0xA8], [0x05, 0x9A], [0x06, 0x70],
  [0x07, 0xFF], [0x08, 0x91], [0x09, 0x90], [0x0A, 0xFF], [0x0B, 0x8F], [0x0C, 0x60],
  [0x0D, 0x58], [0x0E, 0x48], [0x0F, 0x38], [0x10, 0x2B], [0xFF, 0x30], [0xFF, 0x52],
  [0xFF, 0x00], [0x36, 0x02], [0x3A, 0x70]
]

/-- The `mipi_dsi_dcs_write_seq` statements of
`panel_nv3051d_init_sequence_r36s`, in source order. -/
def panel_nv3051d_init_sequence_r36s_cmds : List (List Nat) := [
  [0xff, 0x30], [0xff, 0x52], [0xff, 0x01], [0xe3, 0x00], [0x25, 0x10], [0x28, 0x6f],
  [0x29, 0x01], [0x2a, 0xdf], [0x2c, 0x22], [0xc3, 0x0f], [0x37, 0x9c], [0x38, 0xa7],
  [0x39, 0x41], [0x80, 0x20], [0x91, 0x67], [0x92, 0x67], [0xa0, 0x55], [0xa1, 0x50],
  [0xa3, 0x58], [0xa4, 0x9c], [0xa7, 0x02], [0xa8, 0x01], [0xa9, 0x21], [0xaa, 0xfc],
  [0xab, 0x28], [0xac, 0x06], [0xad, 0x06], [0xae, 0x06], [0xaf, 0x03], [0xb0, 0x08],
  [0xb1, 0x26], [0xb2, 0x28], [0xb3, 0x28], [0xb4, 0x03], [0xb5, 0x08], [0xb6, 0x26],
  [0xb7, 0x08], [0xb8, 0x26], [0x2c, 0x22], [0x5c, 0x40], [0xc0, 0x00], [0xc1, 0x00],
  [0xc2, 0x00], [0xff, 0x30], [0xff, 0x52], [0xff, 0x02], [0xb0, 0x02], [0xd0, 0x02],
  [0xb1, 0x0f], [0xd1, 0x10], [0xb2, 0x11], [0xd2, 0x12], [0xb3, 0x32], [0xd3, 0x33],
  [0xb4, 0x36], [0xd4, 0x36], [0xb5, 0x3c], [0xd5, 0x3c], [0xb6, 0x20], [0xd6, 0x20],
  [0xb7, 0x3e], [0xd7, 0x3e], [0xb8, 0x0e], [0xd8, 0x0d], [0xb9, 0x05], [0xd9, 0x05],
  [0xba, 0x11], [0xda, 0x12], [0xbb, 0x11], [0xdb, 0x11], [0xbc, 0x13], [0xdc, 0x14],
  [0xbd, 0x14], [0xdd, 0x14], [0xbe, 0x16], [0xde, 0x18], [0xbf, 0x0e], [0xdf, 0x0f],
  [0xc0, 0x17], [0xe0, 0x17], [0xc1, 0x07], [0xe1, 0x08], [0xff, 0x30], [0xff, 0x52],
  [0xff, 0x03], [0x08, 0x8a], [0x09, 0x8b], [0x30, 0x00], [0x31, 0x00], [0x32, 0x00],
  [0x33, 0x00], [0x34, 0x61], [0x35, 0xd4], [0x36, 0x24], [0x37, 0x03], [0x40, 0x86],
  [0x41, 0x87], [0x42, 0x84], [0x43, 0x85], [0x44, 0x11], [0x45, 0xde], [0x46, 0xdd],
  [0x47, 0x11], [0x48, 0xe0], [0x49, 0xdf], [0x50, 0x82], [0x51, 0x83], [0x52, 0x80],
  [0x53, 0x81], [0x54, 0x11], [0x55, 0xe2], [0x56, 0xe1], [0x57, 0x11], [0x58, 0xe4],
  [0x59, 0xe3], [0x82, 0x0f], [0x83, 0x0f], [0x84, 0x00], [0x85, 0x0f], [0x86, 0x0f],
  [0x87, 0x0e], [0x88, 0x0e], [0x89, 0x06], [0x8a, 0x06], [0x8b, 0x07], [0x8c, 0x07],
  [0x8d, 0x04], [0x8e, 0x04], [0x8f, 0x05], [0x90, 0x05], [0x98, 0x0f], [0x99, 0x0f],
  [0x9a, 0x00], [0x9b, 0x0f], [0x9c, 0x0f], [0x9d, 0x0e], [0x9e, 0x0e], [0x9f, 0x06],
  [0xa0, 0x06], [0xa1, 0x07], [0xa2, 0x07], [0xa3, 0x04], [0xa4, 0x04], [0xa5, 0x05],
  [0xa6, 0x05], [0xe0, 0x02], [0xe1, 0x52], [0xff, 0x30], [0xff, 0x52], [0xff, 0x00],
  [0x36, 0x02], [0x11, 0x00], [0x29, 0x00], [0x11], [0x29]
]

def panel_nv3051d_init_sequence (env : Env) (w : World) : Int × World :=
  mipi_dsi_dcs_write_seq env panel_nv3051d_init_sequence_cmds w

def panel_nv3051d_init_sequence_r36s (env : Env) (w : World) : Int × World :=
  mipi_dsi_dcs_write_seq env panel_nv3051d_init_sequence_r36s_cmds w

/-- The values an `init_sequence` function pointer takes in this file. -/
inductive InitSeqFn where
  | panel_nv3051d_init_sequence
  | panel_nv3051d_init_sequence_r36s
  deriving DecidableEq, Repr

/-- Calling through the function pointer. -/
def InitSeqFn.call : InitSeqFn → Env → World → Int × World
  | .panel_nv3051d_init_sequence => NV3051D.panel_nv3051d_init_sequence
  | .panel_nv3051d_init_sequence_r36s => NV3051D.panel_nv3051d_init_sequence_r36s

/-- The command table the pointed-to function replays. -/
def InitSeqFn.cmds : InitSeqFn → List (List Nat)
  | .panel_nv3051d_init_sequence => panel_nv3051d_init_sequence_cmds
  | .panel_nv3051d_init_sequence_r36s => panel_nv3051d_init_sequence_r36s_cmds

/-! ## Variant catalog -/

def DRM_MODE_TYPE_PREFERRED : Nat := 1 <<< 3
def DRM_MODE_TYPE_DRIVER : Nat := 1 <<< 6
def DRM_BUS_FLAG_DE_LOW : Nat := 1 <<< 0
def DRM_BUS_FLAG_PIXDATA_DRIVE_NEGEDGE : Nat := 1 <<< 3
def ENOMEM : Int := 12

/-- The timing fields of `struct drm_display_mode` that the mode tables set
(the polarity flags word is left out), and its `type` bit mask, which the
tables leave zero. -/
structure drm_display_mode where
  hdisplay : Nat
  hsync_start : Nat
  hsync_end : Nat
  htotal : Nat
  vdisplay : Nat
  vsync_start : Nat
  vsync_end : Nat
  vtotal : Nat
  clock : Nat
  type : Nat := 0
  deriving DecidableEq, Repr, Inhabited

/-- Per-variant description (`struct nv3051d_panel_info`); the DSI
`mode_flags` word, which only probe reads, is left out. -/
structure nv3051d_panel_info where
  display_modes : List drm_display_mode
  num_modes : Nat
  width_mm : Nat
  height_mm : Nat
  bus_flags : Nat
  init_sequence : Option InitSeqFn
  deriving DecidableEq, Repr

/-- The driver context (`struct panel_nv3051d`): its constant part.  The
resources behind its `reset_gpio` and `vdd` handles live in `World`. -/
structure panel_nv3051d where
  panel_info : nv3051d_panel_info
  deriving DecidableEq, Repr

def nv3051d_rgxx3_modes : List drm_display_mode := [
  { hdisplay := 640, hsync_start := 640 + 40, hsync_end := 640 + 40 + 2,
    htotal := 640 + 40 + 2 + 80,
    vdisplay := 480, vsync_start := 480 + 18, vsync_end := 480 + 18 + 2,
    vtotal := 480 + 18 + 2 + 28, clock := 48300 },
  { hdisplay := 640, hsync_start := 640 + 40, hsync_end := 640 + 40 + 2,
    htotal := 640 + 40 + 2 + 80,
    vdisplay := 480, vsync_start := 480 + 18, vsync_end := 480 + 18 + 2,
    vtotal := 480 + 18 + 2 + 28, clock := 40250 },
  { hdisplay := 640, hsync_start := 640 + 40, hsync_end := 640 + 40 + 2,
    htotal := 640 + 40 + 2 + 44,
    vdisplay := 480, vsync_start := 480 + 18, vsync_end := 480 + 18 + 2,
    vtotal := 480 + 18 + 2 + 28, clock := 24150 } ]

def nv3051d_rk2023_modes : List drm_display_mode := [
  { hdisplay := 640, hsync_start := 640 + 40, hsync_end := 640 + 40 + 2,
    htotal := 640 + 40 + 2 + 80,
    vdisplay := 480, vsync_start := 480 + 18, vsync_end := 480 + 18 + 2,
    vtotal := 480 + 18 + 2 + 4, clock := 24150 } ]

def nv3051d_r36s_info : nv3051d_panel_info :=
  { display_modes := nv3051d_rk2023_modes, num_modes := nv3051d_rk2023_modes.length,
    width_mm := 70, height_mm := 52,
    bus_flags := DRM_BUS_FLAG_DE_LOW ||| DRM_BUS_FLAG_PIXDATA_DRIVE_NEGEDGE,
    init_sequence := some InitSeqFn.panel_nv3051d_init_sequence_r36s }

def nv3051d_rg351v_info : nv3051d_panel_info :=
  { display_modes := nv3051d_rgxx3_modes, num_modes := nv3051d_rgxx3_modes.length,
    width_mm := 70, height_mm := 57,
    bus_flags := DRM_BUS_FLAG_DE_LOW ||| DRM_BUS_FLAG_PIXDATA_DRIVE_NEGEDGE,
    init_sequence := some InitSeqFn.panel_nv3051d_init_sequence }

def nv3051d_rg353p_info : nv3051d_panel_info :=
  { display_modes := nv3051d_rgxx3_modes, num_modes := nv3051d_rgxx3_modes.length,
    width_mm := 70, height_mm := 57,
    bus_flags := DRM_BUS_FLAG_DE_LOW ||| DRM_BUS_FLAG_PIXDATA_DRIVE_NEGEDGE,
    init_sequence := some InitSeqFn.panel_nv3051d_init_sequence }

def nv3051d_rk2023_info : nv3051d_panel_info :=
  { display_modes := nv3051d_rk2023_modes, num_modes := nv3051d_rk2023_modes.length,
    width_mm := 70, height_mm := 57,
    bus_flags := DRM_BUS_FLAG_DE_LOW ||| DRM_BUS_FLAG_PIXDATA_DRIVE_NEGEDGE,
    init_sequence := some InitSeqFn.panel_nv3051d_init_sequence }

/-- The match table, without its sentinel. -/
def newvision_nv3051d_of_match : List (String × nv3051d_panel_info) := [
  ("gameconsole,r36s-panel", nv3051d_r36s_info),
  ("anbernic,rg351v-panel", nv3051d_rg351v_info),
  ("anbernic,rg353p-panel", nv3051d_rg353p_info),
  ("powkiddy,rk2023-panel", nv3051d_rk2023_info) ]

/-- The variants of the static catalog. -/
def catalog : List nv3051d_panel_info := newvision_nv3051d_of_match.map Prod.snd

/-- The command table a variant replays during `prepare` (empty when the
variant has no init sequence). -/
def init_cmds (info : nv3051d_panel_info) : List (List Nat) :=
  match info.init_sequence with
  | some f => f.cmds
  | none => []

/-! ## Lifecycle operations -/

/-- The `disable_vdd:` exit of `panel_nv3051d_prepare`. -/
def disable_vdd (ret : Int) (w : World) : Int × World :=
  (ret, regulator_disable w)

def panel_nv3051d_unprepare (env : Env) (_ctx : panel_nv3051d) (w : World) : Int × World :=
  let r := mipi_dsi_dcs_set_display_off env w
  -- a failure here is only logged
  let w := msleep 20 r.2
  let r := mipi_dsi_dcs_enter_sleep_mode env w
  if r.1 < 0 then r else
  let w := usleep_range 10000 15000 r.2
  let w := gpiod_set_value_cansleep 1 w
  let w := regulator_disable w
  (0, w)

def panel_nv3051d_prepare (env : Env) (ctx : panel_nv3051d) (w : World) : Int × World :=
  let r := regulator_enable env w
  if r.1 < 0 then r else
  let w := usleep_range 2000 3000 r.2
  let w := gpiod_set_value_cansleep 1 w
  let w := msleep 150 w
  let w := gpiod_set_value_cansleep 0 w
  let w := msleep 20 w
  let r := match ctx.panel_info.init_sequence with
    | some f => f.call env w
    | none => (r.1, w)
  if r.1 < 0 then disable_vdd r.1 r.2 else
  let r := mipi_dsi_dcs_exit_sleep_mode env r.2
  if r.1 < 0 then disable_vdd r.1 r.2 else
  let w := msleep 200 r.2
  let r := mipi_dsi_dcs_set_display_on env w
  if r.1 < 0 then disable_vdd r.1 r.2 else
  let w := usleep_range 10000 15000 r.2
  (0, w)

/-- The resources as `panel_nv3051d_probe` leaves them: the reset line, when
the board has one, is acquired driven asserted (`GPIOD_OUT_HIGH`); the
regulator is acquired, not enabled; nothing has happened yet. -/
def panel_nv3051d_probe (has_reset : Bool) : World :=
  { reset_gpio := if has_reset then some 1 else none, vdd := 0, trace := [] }

/-- Events appended to the trace between world `w` and a later world `w2`. -/
def new_events (w w2 : World) : List Event := w2.trace.drop w.trace.length

/-- Transfer events of sending `cmds` one after the other, the first of
them being transfer number `n` of the trace. -/
def xfer_events (env : Env) (n : Nat) : List (List Nat) → List Event
  | [] => []
  | d :: rest => Event.dsi_transfer d (env.dsi n) :: xfer_events env (n + 1) rest

/-- Events of a successful power-on: rail enabled (code `ret`), settle,
reset asserted, hold, reset released, hold. -/
def power_on_events (ret : Int) : List Event :=
  [Event.regulator_enable ret, Event.usleep_range 2000 3000, Event.gpiod_set_value 1,
   Event.msleep 150, Event.gpiod_set_value 0, Event.msleep 20]

/-- A channel on which transfer number `k` fails with code `err` and every
other transfer succeeds; the regulator always enables. -/
def env_fail_at (k : Nat) (err : Int) : Env :=
  { regulator_enable := fun _ => 0, dsi := fun n => if n = k then err else 0 }

/-- An environment in which every call succeeds. -/
def env_ok : Env :=
  { regulator_enable := fun _ => 0, dsi := fun _ => 0 }

/-- The bare exit-sleep-mode command (DCS 0x11) reaching the channel. -/
def Event.is_exit_sleep : Event → Bool
  | .dsi_transfer d _ => decide (d = [MIPI_DCS_EXIT_SLEEP_MODE])
  | _ => false

/-- The bare display-on command (DCS 0x29) reaching the channel. -/
def Event.is_display_on : Event → Bool
  | .dsi_transfer d _ => decide (d = [MIPI_DCS_SET_DISPLAY_ON])
  | _ => false

/-- Guaranteed minimum time spent sleeping over a run of events, in µs. -/
def total_wait_us : List Event → Nat
  | [] => 0
  | e :: rest => e.min_wait_us + total_wait_us rest

/-- Scan of a trace for the wake-latency rule.  `since` is `none` until the
first exit-sleep command has reached the channel, then `some t` with `t` the
minimum time slept since.  The scan fails at a display-on command that comes
before any exit-sleep or less than 200 ms after the first one. -/
def display_on_guarded_from : Option Nat → List Event → Bool
  | _, [] => true
  | since, e :: rest =>
    if e.is_display_on then
      (match since with
        | some t => decide (200 * 1000 ≤ t)
        | none => false) && display_on_guarded_from since rest
    else if e.is_exit_sleep then
      display_on_guarded_from (some (since.getD 0)) rest
    else
      display_on_guarded_from (since.map (fun t => t + e.min_wait_us)) rest

/-- No display-on command reaches the channel until at least 200 ms of
sleeping has elapsed after the first exit-sleep command. -/
def display_on_guarded (tr : List Event) : Bool := display_on_guarded_from none tr

/-- Minimum time slept after the last display-on command of a trace (`none`
when the trace has no display-on command). -/
def wait_after_last_display_on : List Event → Option Nat
  | [] => none
  | e :: rest =>
    match wait_after_last_display_on rest with
    | some t => some t
    | none => if e.is_display_on then some (total_wait_us rest) else none

/-! ## Mode reporting -/

/-- Display information a connector holds (`connector->display_info`), the
fields `get_modes` writes. -/
structure drm_display_info where
  bpc : Nat
  width_mm : Nat
  height_mm : Nat
  bus_flags : Nat
  deriving DecidableEq, Repr

/-- The connector `get_modes` reports to: its list of probed modes, oldest
first, and its display information. -/
structure drm_connector where
  probed_modes : List drm_display_mode
  display_info : drm_display_info
  deriving DecidableEq, Repr

/-- Modelled from the spec: `drm_mode_probed_add` (DRM core, not in this
file): appends the mode at the tail of the connector's probed list. -/
def drm_mode_probed_add (connector : drm_connector) (mode : drm_display_mode) :
    drm_connector :=
  { connector with probed_modes := connector.probed_modes ++ [mode] }

/-- The mode is flagged preferred. -/
def drm_display_mode.is_preferred (m : drm_display_mode) : Bool :=
  decide (m.type &&& DRM_MODE_TYPE_PREFERRED ≠ 0)

/-- The `for (i = 0; i < panel_info->num_modes; i++)` loop of
`panel_nv3051d_get_modes`, with `left` iterations to go from index `i`.
`alloc_ok i` tells whether `drm_mode_duplicate` (DRM core, not in this file)
succeeds in iteration `i`; when it does it yields a copy of
`display_modes[i]`.  `drm_mode_set_name` only fills the copy's name, which is
not modelled.  The result code is 0 when the loop ran to its end and
`-ENOMEM` when it returned early. -/
def panel_nv3051d_get_modes_loop (alloc_ok : Nat → Bool) (panel_info : nv3051d_panel_info) :
    Nat → Nat → drm_connector → Int × drm_connector
  | 0, _, connector => (0, connector)
  | left + 1, i, connector =>
    if alloc_ok i = true then
      let mode := panel_info.display_modes.getD i default
      let mode := { mode with type := DRM_MODE_TYPE_DRIVER }
      let mode :=
        if panel_info.num_modes = 1 then
          { mode with type := mode.type ||| DRM_MODE_TYPE_PREFERRED }
        else mode
      panel_nv3051d_get_modes_loop alloc_ok panel_info left (i + 1)
        (drm_mode_probed_add connector mode)
    else (-ENOMEM, connector)

def panel_nv3051d_get_modes (alloc_ok : Nat → Bool) (ctx : panel_nv3051d)
    (connector : drm_connector) : Int × drm_connector :=
  let panel_info := ctx.panel_info
  let r := panel_nv3051d_get_modes_loop alloc_ok panel_info panel_info.num_modes 0 connector
  if r.1 < 0 then r else
  let connector := { r.2 with display_info :=
    { bpc := 8, width_mm := panel_info.width_mm, height_mm := panel_info.height_mm,
      bus_flags := panel_info.bus_flags } }
  (panel_info.num_modes, connector)

/-- The type mask `get_modes` stamps on the modes of a table of `n` entries. -/
def reported_type (n : Nat) : Nat :=
  if n = 1 then DRM_MODE_TYPE_DRIVER ||| DRM_MODE_TYPE_PREFERRED else DRM_MODE_TYPE_DRIVER

/-- An empty connector. -/
def connector_empty : drm_connector :=
  { probed_modes := [],
    display_info := { bpc := 0, width_mm := 0, height_mm := 0, bus_flags := 0 } }

/-! ## Forced teardown -/

/-- Modelled from the spec: `drm_panel_unprepare` (DRM panel core, not in this
file).  `prepared` is the core's record that the panel is not `Off`:
unprepare is an idempotent no-op returning success from `Off`, and otherwise
runs the driver's `unprepare` callback and returns what it returns. -/
def drm_panel_unprepare (env : Env) (ctx : panel_nv3051d) (prepared : Bool) (w : World) :
    Int × World :=
  if prepared = true then panel_nv3051d_unprepare env ctx w else (0, w)

/-- Modelled from the spec: the panel core's record after a call of
`drm_panel_unprepare` that returned `ret` (DRM panel core, not in this
file).  A successful unprepare ends in `Off`, so the panel is recorded as not
prepared; an unprepare that aborted with an error leaves the record as it
was. -/
def drm_panel_prepared_after_unprepare (prepared : Bool) (ret : Int) : Bool :=
  prepared && decide (ret < 0)

/-- Modelled from the spec: `drm_panel_disable` (DRM panel core, not in this
file).  The driver registers no `disable` callback in `panel_nv3051d_funcs`,
so the call reaches only the backlight, which is outside the resources of
`World`; `ret` is the code it returns. -/
def drm_panel_disable (ret : Int) (w : World) : Int × World :=
  (ret, w)

/-- The shutdown handler: returns nothing, both results are only logged.
`disable_ret` is what `drm_panel_disable` returns. -/
def panel_nv3051d_shutdown (env : Env) (ctx : panel_nv3051d) (prepared : Bool)
    (disable_ret : Int) (w : World) : World :=
  let r := drm_panel_unprepare env ctx prepared w
  -- r.1 < 0 is only logged
  let r := drm_panel_disable disable_ret r.2
  -- r.1 < 0 is only logged
  r.2

/-- The remove handler: shutdown, then `mipi_dsi_detach` (result `_detach_ret`
only logged) and `drm_panel_remove`, which are bookkeeping of the DSI host
and the panel list and act on none of the resources of `World`. -/
def panel_nv3051d_remove (env : Env) (ctx : panel_nv3051d) (prepared : Bool)
    (disable_ret _detach_ret : Int) (w : World) : World :=
  panel_nv3051d_shutdown env ctx prepared disable_ret w

/-! ## Register pages -/

/-- The command writes register 0xFF. -/
def writes_page_register (d : List Nat) : Bool := decide (d.head? = some 0xFF)

/-- Progress of a scan through a page-select triple `FF 30`, `FF 52`, `FF n`. -/
inductive SelectState where
  | idle
  | seen_30
  | seen_52
  deriving DecidableEq, Repr

/-- Scan for the rule that every write to register 0xFF is part of a
consecutive triple `FF 30`, `FF 52`, `FF n` with `n` one of 0, 1, 2, 3: a
write `FF 30` must be followed at once by `FF 52` and then by `FF n`, and
no other write to 0xFF may occur. -/
def page_writes_well_formed_from : SelectState → List (List Nat) → Bool
  | st, [] => decide (st = SelectState.idle)
  | SelectState.idle, d :: rest =>
    if d = [0xFF, 0x30] then page_writes_well_formed_from SelectState.seen_30 rest
    else !writes_page_register d && page_writes_well_formed_from SelectState.idle rest
  | SelectState.seen_30, d :: rest =>
    decide (d = [0xFF, 0x52]) && page_writes_well_formed_from SelectState.seen_52 rest
  | SelectState.seen_52, d :: rest =>
    decide (d = [0xFF, 0] ∨ d = [0xFF, 1] ∨ d = [0xFF, 2] ∨ d = [0xFF, 3]) &&
      page_writes_well_formed_from SelectState.idle rest

def page_writes_well_formed (cmds : List (List Nat)) : Bool :=
  page_writes_well_formed_from SelectState.idle cmds

/-- The sequence begins with a page-select triple. -/
def begins_with_page_select : List (List Nat) → Bool
  | a :: b :: c :: _ =>
    decide (a = [0xFF, 0x30] ∧ b = [0xFF, 0x52] ∧
      (c = [0xFF, 0] ∨ c = [0xFF, 1] ∨ c = [0xFF, 2] ∨ c = [0xFF, 3]))
  | _ => false

/-- Scan that tracks the last completed page-select triple: `acc` is `none`
before the first triple, then `some (n, since)` with `n` the page the last
triple selected and `since` the commands sent after it. -/
def page_scan : SelectState → Option (Nat × List (List Nat)) → List (List Nat) →
    Option (Nat × List (List Nat))
  | _, acc, [] => acc
  | st, acc, d :: rest =>
    match st, d with
    | SelectState.seen_52, [0xFF, n] => page_scan SelectState.idle (some (n, [])) rest
    | _, _ =>
      let acc2 := acc.map (fun p => (p.1, p.2 ++ [d]))
      if d = [0xFF, 0x30] then page_scan SelectState.seen_30 acc2 rest
      else if st = SelectState.seen_30 ∧ d = [0xFF, 0x52] then
        page_scan SelectState.seen_52 acc2 rest
      else page_scan SelectState.idle acc2 rest

/-- The page selected by the last page-select triple of a sequence and the
commands that follow that triple (`none` when there is no triple). -/
def last_page_select (cmds : List (List Nat)) : Option (Nat × List (List Nat)) :=
  page_scan SelectState.idle none cmds

/-! ## Basic facts about traces -/

@[simp] theorem transfers_nil : transfers [] = 0 := rfl

@[simp] theorem transfers_append (a b : List Event) :
    transfers (a ++ b) = transfers a + transfers b := by
  simp [transfers]

@[simp] theorem transfers_cons_dsi (d : List Nat) (r : Int) (tr : List Event) :
    transfers (Event.dsi_transfer d r :: tr) = transfers tr + 1 := by
  simp [transfers, Event.is_transfer]

@[simp] theorem transfers_cons_enable (r : Int) (tr : List Event) :
    transfers (Event.regulator_enable r :: tr) = transfers tr := by
  simp [transfers, Event.is_transfer]

@[simp] theorem transfers_cons_disable (tr : List Event) :
    transfers (Event.regulator_disable :: tr) = transfers tr := by
  simp [transfers, Event.is_transfer]

@[simp] theorem transfers_cons_gpio (v : Nat) (tr : List Event) :
    transfers (Event.gpiod_set_value v :: tr) = transfers tr := by
  simp [transfers, Event.is_transfer]

@[simp] theorem transfers_cons_msleep (m : Nat) (tr : List Event) :
    transfers (Event.msleep m :: tr) = transfers tr := by
  simp [transfers, Event.is_transfer]

@[simp] theorem transfers_cons_usleep (a b : Nat) (tr : List Event) :
    transfers (Event.usleep_range a b :: tr) = transfers tr := by
  simp [transfers, Event.is_transfer]

@[simp] theorem xfer_events_length (env : Env) (cmds : List (List Nat)) :
    ∀ n, (xfer_events env n cmds).length = cmds.length := by
  induction cmds with
  | nil => intro n; rfl
  | cons d rest ih => intro n; simp [xfer_events, ih]

@[simp] theorem transfers_xfer_events (env : Env) (cmds : List (List Nat)) :
    ∀ n, transfers (xfer_events env n cmds) = cmds.length := by
  induction cmds with
  | nil => intro n; rfl
  | cons d rest ih => intro n; simp [xfer_events, ih]

@[simp] theorem sent_payloads_xfer_events (env : Env) (cmds : List (List Nat)) :
    ∀ n, sent_payloads (xfer_events env n cmds) = cmds := by
  induction cmds with
  | nil => intro n; rfl
  | cons d rest ih => intro n; simp [xfer_events, sent_payloads, ih]

@[simp] theorem reset_map_map (o : Option Nat) (a b : Nat) :
    Option.map ((fun _ => b) ∘ fun _ => a) o = Option.map (fun _ => b) o := by
  cases o <;> rfl

@[simp] theorem enable_calls_append (a b : List Event) :
    enable_calls (a ++ b) = enable_calls a + enable_calls b := by
  simp [enable_calls]

@[simp] theorem disable_calls_append (a b : List Event) :
    disable_calls (a ++ b) = disable_calls a + disable_calls b := by
  simp [disable_calls]

@[simp] theorem gpio_calls_append (a b : List Event) :
    gpio_calls (a ++ b) = gpio_calls a + gpio_calls b := by
  simp [gpio_calls]

@[simp] theorem enable_calls_xfer_events (env : Env) (cmds : List (List Nat)) :
    ∀ n, enable_calls (xfer_events env n cmds) = 0 := by
  induction cmds with
  | nil => intro n; rfl
  | cons d rest ih =>
    intro n
    have := ih (n + 1)
    simp only [enable_calls] at this
    simp [xfer_events, enable_calls, Event.is_enable, this]

@[simp] theorem disable_calls_xfer_events (env : Env) (cmds : List (List Nat)) :
    ∀ n, disable_calls (xfer_events env n cmds) = 0 := by
  induction cmds with
  | nil => intro n; rfl
  | cons d rest ih =>
    intro n
    have := ih (n + 1)
    simp only [disable_calls] at this
    simp [xfer_events, disable_calls, Event.is_disable, this]

@[simp] theorem gpio_calls_xfer_events (env : Env) (cmds : List (List Nat)) :
    ∀ n, gpio_calls (xfer_events env n cmds) = 0 := by
  induction cmds with
  | nil => intro n; rfl
  | cons d rest ih =>
    intro n
    have := ih (n + 1)
    simp only [gpio_calls] at this
    simp [xfer_events, gpio_calls, Event.is_gpio, this]

theorem enable_calls_cons (e : Event) (tr : List Event) :
    enable_calls (e :: tr) = enable_calls tr + (if e.is_enable = true then 1 else 0) := by
  simp [enable_calls, List.countP_cons]

theorem disable_calls_cons (e : Event) (tr : List Event) :
    disable_calls (e :: tr) = disable_calls tr + (if e.is_disable = true then 1 else 0) := by
  simp [disable_calls, List.countP_cons]

theorem gpio_calls_cons (e : Event) (tr : List Event) :
    gpio_calls (e :: tr) = gpio_calls tr + (if e.is_gpio = true then 1 else 0) := by
  simp [gpio_calls, List.countP_cons]

@[simp] theorem enable_calls_nil : enable_calls [] = 0 := rfl

@[simp] theorem disable_calls_nil : disable_calls [] = 0 := rfl

@[simp] theorem gpio_calls_nil : gpio_calls [] = 0 := rfl

@[simp] theorem sent_payloads_append (a b : List Event) :
    sent_payloads (a ++ b) = sent_payloads a ++ sent_payloads b := by
  induction a with
  | nil => rfl
  | cons e rest ih => cases e <;> simp [sent_payloads, ih]

@[simp] theorem sent_payloads_power_on_events (ret : Int) :
    sent_payloads (power_on_events ret) = [] := rfl

@[simp] theorem enable_calls_power_on_events (ret : Int) :
    enable_calls (power_on_events ret) = 1 := rfl

@[simp] theorem disable_calls_power_on_events (ret : Int) :
    disable_calls (power_on_events ret) = 0 := rfl

@[simp] theorem gpio_calls_power_on_events (ret : Int) :
    gpio_calls (power_on_events ret) = 2 := rfl

@[simp] theorem transfers_power_on_events (ret : Int) :
    transfers (power_on_events ret) = 0 := rfl

theorem new_events_append (w w2 : World) (evs : List Event)
    (h : w2.trace = w.trace ++ evs) : new_events w w2 = evs := by
  simp [new_events, h]

/-! ## The replay loop -/

/-- When no send fails, the whole table is sent and the result is 0. -/
theorem write_seq_ok (env : Env) (cmds : List (List Nat)) :
    ∀ w : World, (∀ i, i < cmds.length → 0 ≤ env.dsi (transfers w.trace + i)) →
      mipi_dsi_dcs_write_seq env cmds w =
        (0, { w with trace := w.trace ++ xfer_events env (transfers w.trace) cmds }) := by
  induction cmds with
  | nil => intro w _; simp [mipi_dsi_dcs_write_seq, xfer_events]
  | cons d rest ih =>
    intro w h
    have h0 : ¬ env.dsi (transfers w.trace) < 0 := by
      have := h 0 (by simp); simpa using this
    have hrest : ∀ i, i < rest.length →
        0 ≤ env.dsi (transfers (mipi_dsi_dcs_write_buffer env d w).2.trace + i) := by
      intro i hi
      have := h (i + 1) (by simpa using hi)
      simpa [mipi_dsi_dcs_write_buffer, Nat.add_assoc, Nat.add_comm 1 i] using this
    rw [mipi_dsi_dcs_write_seq]
    simp only [mipi_dsi_dcs_write_buffer] at hrest ⊢
    rw [if_neg h0, ih _ hrest]
    simp [xfer_events, List.append_assoc]

/-- When the first failing send is at position `k`, exactly the commands
`0..k` are sent and the result is the error of that send. -/
theorem write_seq_fail (env : Env) (cmds : List (List Nat)) :
    ∀ (w : World) (k : Nat), k < cmds.length →
      (∀ i, i < k → 0 ≤ env.dsi (transfers w.trace + i)) →
      env.dsi (transfers w.trace + k) < 0 →
      mipi_dsi_dcs_write_seq env cmds w =
        (env.dsi (transfers w.trace + k),
          { w with trace := w.trace ++
              xfer_events env (transfers w.trace) (cmds.take (k + 1)) }) := by
  induction cmds with
  | nil => intro w k hk; simp at hk
  | cons d rest ih =>
    intro w k hk hok hfail
    rw [mipi_dsi_dcs_write_seq]
    cases k with
    | zero =>
      have h0 : env.dsi (transfers w.trace) < 0 := by simpa using hfail
      simp only [mipi_dsi_dcs_write_buffer]
      rw [if_pos h0]
      simp [xfer_events]
    | succ k =>
      have h0 : ¬ env.dsi (transfers w.trace) < 0 := by
        have := hok 0 (by simp); simpa using this
      have hk2 : k < rest.length := by simpa using hk
      have hok2 : ∀ i, i < k →
          0 ≤ env.dsi (transfers (mipi_dsi_dcs_write_buffer env d w).2.trace + i) := by
        intro i hi
        have := hok (i + 1) (by omega)
        simpa [mipi_dsi_dcs_write_buffer, Nat.add_assoc, Nat.add_comm 1 i] using this
      have hfail2 :
          env.dsi (transfers (mipi_dsi_dcs_write_buffer env d w).2.trace + k) < 0 := by
        simpa [mipi_dsi_dcs_write_buffer, Nat.add_assoc, Nat.add_comm 1 k] using hfail
      simp only [mipi_dsi_dcs_write_buffer] at hok2 hfail2 ⊢
      rw [if_neg h0, ih _ k hk2 hok2 hfail2]
      simp [xfer_events, List.append_assoc, Nat.add_assoc, Nat.add_comm 1 k]

theorem call_eq_write_seq (f : InitSeqFn) (env : Env) (w : World) :
    f.call env w = mipi_dsi_dcs_write_seq env f.cmds w := by
  cases f <;> rfl

/-! ## Outcomes of `prepare` -/

/-- Outcome of `prepare` when `regulator_enable` fails. -/
theorem prepare_enable_fail (env : Env) (ctx : panel_nv3051d) (w : World)
    (hen : env.regulator_enable (enable_calls w.trace) < 0) :
    panel_nv3051d_prepare env ctx w =
      (env.regulator_enable (enable_calls w.trace),
        { w with trace := w.trace ++
            [Event.regulator_enable (env.regulator_enable (enable_calls w.trace))] }) := by
  simp [panel_nv3051d_prepare, regulator_enable, hen]

/-- Outcome of `prepare` when the init sequence fails first at position `k`. -/
theorem prepare_init_fail (env : Env) (ctx : panel_nv3051d) (f : InitSeqFn) (w : World)
    (k : Nat) (hf : ctx.panel_info.init_sequence = some f) (hk : k < f.cmds.length)
    (hen : 0 ≤ env.regulator_enable (enable_calls w.trace))
    (hok : ∀ i, i < k → 0 ≤ env.dsi (transfers w.trace + i))
    (hfail : env.dsi (transfers w.trace + k) < 0) :
    panel_nv3051d_prepare env ctx w =
      (env.dsi (transfers w.trace + k),
        { reset_gpio := w.reset_gpio.map (fun _ => 0), vdd := w.vdd,
          trace := w.trace ++ (power_on_events (env.regulator_enable (enable_calls w.trace))
            ++ xfer_events env (transfers w.trace) (f.cmds.take (k + 1))
            ++ [Event.regulator_disable]) }) := by
  have hen2 : ¬ env.regulator_enable (enable_calls w.trace) < 0 := not_lt.mpr hen
  simp only [panel_nv3051d_prepare, regulator_enable, hf, call_eq_write_seq, if_neg hen2,
    usleep_range, gpiod_set_value_cansleep, msleep]
  rw [write_seq_fail env f.cmds _ k hk (by simpa [power_on_events] using hok)
    (by simpa [power_on_events] using hfail)]
  simp [disable_vdd, regulator_disable, power_on_events, hfail, List.append_assoc]

/-- Outcome of `prepare` when the init sequence succeeds and the standard
exit-sleep command fails. -/
theorem prepare_exit_sleep_fail (env : Env) (ctx : panel_nv3051d) (f : InitSeqFn) (w : World)
    (hf : ctx.panel_info.init_sequence = some f)
    (hen : 0 ≤ env.regulator_enable (enable_calls w.trace))
    (hok : ∀ i, i < f.cmds.length → 0 ≤ env.dsi (transfers w.trace + i))
    (hfail : env.dsi (transfers w.trace + f.cmds.length) < 0) :
    panel_nv3051d_prepare env ctx w =
      (env.dsi (transfers w.trace + f.cmds.length),
        { reset_gpio := w.reset_gpio.map (fun _ => 0), vdd := w.vdd,
          trace := w.trace ++ (power_on_events (env.regulator_enable (enable_calls w.trace))
            ++ xfer_events env (transfers w.trace) f.cmds
            ++ [Event.dsi_transfer [MIPI_DCS_EXIT_SLEEP_MODE]
                  (env.dsi (transfers w.trace + f.cmds.length)),
                Event.regulator_disable]) }) := by
  have hen2 : ¬ env.regulator_enable (enable_calls w.trace) < 0 := not_lt.mpr hen
  simp only [panel_nv3051d_prepare, regulator_enable, hf, call_eq_write_seq, if_neg hen2,
    usleep_range, gpiod_set_value_cansleep, msleep]
  rw [write_seq_ok env f.cmds _ (by simpa [power_on_events] using hok)]
  simp [disable_vdd, regulator_disable, power_on_events, hfail, List.append_assoc,
    mipi_dsi_dcs_exit_sleep_mode, mipi_dsi_dcs_short, mipi_dsi_dcs_write_buffer]

/-- Outcome of `prepare` when only the standard display-on command fails. -/
theorem prepare_display_on_fail (env : Env) (ctx : panel_nv3051d) (f : InitSeqFn) (w : World)
    (hf : ctx.panel_info.init_sequence = some f)
    (hen : 0 ≤ env.regulator_enable (enable_calls w.trace))
    (hok : ∀ i, i < f.cmds.length + 1 → 0 ≤ env.dsi (transfers w.trace + i))
    (hfail : env.dsi (transfers w.trace + f.cmds.length + 1) < 0) :
    panel_nv3051d_prepare env ctx w =
      (env.dsi (transfers w.trace + f.cmds.length + 1),
        { reset_gpio := w.reset_gpio.map (fun _ => 0), vdd := w.vdd,
          trace := w.trace ++ (power_on_events (env.regulator_enable (enable_calls w.trace))
            ++ xfer_events env (transfers w.trace) f.cmds
            ++ [Event.dsi_transfer [MIPI_DCS_EXIT_SLEEP_MODE]
                  (env.dsi (transfers w.trace + f.cmds.length)),
                Event.msleep 200,
                Event.dsi_transfer [MIPI_DCS_SET_DISPLAY_ON]
                  (env.dsi (transfers w.trace + f.cmds.length + 1)),
                Event.regulator_disable]) }) := by
  have hen2 : ¬ env.regulator_enable (enable_calls w.trace) < 0 := not_lt.mpr hen
  have hs : ¬ env.dsi (transfers w.trace + f.cmds.length) < 0 :=
    not_lt.mpr (hok _ (Nat.lt_succ_self _))
  have hfail2 : env.dsi (transfers w.trace + (f.cmds.length + 1)) < 0 := by
    simpa [Nat.add_assoc] using hfail
  simp only [panel_nv3051d_prepare, regulator_enable, hf, call_eq_write_seq, if_neg hen2,
    usleep_range, gpiod_set_value_cansleep, msleep]
  rw [write_seq_ok env f.cmds _
    (by intro i hi; simpa [power_on_events] using hok i (Nat.lt_succ_of_lt hi))]
  simp [disable_vdd, regulator_disable, power_on_events, hfail2, hs, List.append_assoc,
    mipi_dsi_dcs_exit_sleep_mode, mipi_dsi_dcs_set_display_on, mipi_dsi_dcs_short,
    mipi_dsi_dcs_write_buffer, Nat.add_assoc]

/-- Outcome of `prepare` when every call succeeds. -/
theorem prepare_ok (env : Env) (ctx : panel_nv3051d) (f : InitSeqFn) (w : World)
    (hf : ctx.panel_info.init_sequence = some f)
    (hen : 0 ≤ env.regulator_enable (enable_calls w.trace))
    (hok : ∀ i, i < f.cmds.length + 2 → 0 ≤ env.dsi (transfers w.trace + i)) :
    panel_nv3051d_prepare env ctx w =
      (0,
        { reset_gpio := w.reset_gpio.map (fun _ => 0), vdd := w.vdd + 1,
          trace := w.trace ++ (power_on_events (env.regulator_enable (enable_calls w.trace))
            ++ xfer_events env (transfers w.trace) f.cmds
            ++ [Event.dsi_transfer [MIPI_DCS_EXIT_SLEEP_MODE]
                  (env.dsi (transfers w.trace + f.cmds.length)),
                Event.msleep 200,
                Event.dsi_transfer [MIPI_DCS_SET_DISPLAY_ON]
                  (env.dsi (transfers w.trace + f.cmds.length + 1)),
                Event.usleep_range 10000 15000]) }) := by
  have hen2 : ¬ env.regulator_enable (enable_calls w.trace) < 0 := not_lt.mpr hen
  have hs : ¬ env.dsi (transfers w.trace + f.cmds.length) < 0 :=
    not_lt.mpr (hok _ (by omega))
  have hd : ¬ env.dsi (transfers w.trace + (f.cmds.length + 1)) < 0 :=
    not_lt.mpr (hok _ (by omega))
  simp only [panel_nv3051d_prepare, regulator_enable, hf, call_eq_write_seq, if_neg hen2,
    usleep_range, gpiod_set_value_cansleep, msleep]
  rw [write_seq_ok env f.cmds _
    (by intro i hi; simpa [power_on_events] using hok i (by omega))]
  simp [power_on_events, hs, hd, List.append_assoc,
    mipi_dsi_dcs_exit_sleep_mode, mipi_dsi_dcs_set_display_on, mipi_dsi_dcs_short,
    mipi_dsi_dcs_write_buffer, Nat.add_assoc]

/-! ## Outcomes of `unprepare` -/

theorem dcs_short_world (env : Env) (cmd : Nat) (w : World) :
    (mipi_dsi_dcs_short env cmd w).2 =
      { w with trace := w.trace ++
          [Event.dsi_transfer [cmd] (env.dsi (transfers w.trace))] } := by
  simp only [mipi_dsi_dcs_short, mipi_dsi_dcs_write_buffer]
  split_ifs <;> rfl

theorem dcs_short_ret_fail (env : Env) (cmd : Nat) (w : World)
    (h : env.dsi (transfers w.trace) < 0) :
    (mipi_dsi_dcs_short env cmd w).1 = env.dsi (transfers w.trace) := by
  simp [mipi_dsi_dcs_short, mipi_dsi_dcs_write_buffer, h]

theorem dcs_short_ret_ok (env : Env) (cmd : Nat) (w : World)
    (h : 0 ≤ env.dsi (transfers w.trace)) :
    (mipi_dsi_dcs_short env cmd w).1 = 0 := by
  simp [mipi_dsi_dcs_short, mipi_dsi_dcs_write_buffer, not_lt.mpr h]

/-- Outcome of `unprepare` when enter-sleep succeeds. -/
theorem unprepare_ok (env : Env) (ctx : panel_nv3051d) (w : World)
    (hsl : 0 ≤ env.dsi (transfers w.trace + 1)) :
    panel_nv3051d_unprepare env ctx w =
      (0, { reset_gpio := w.reset_gpio.map (fun _ => 1), vdd := w.vdd - 1,
            trace := w.trace ++
              [Event.dsi_transfer [MIPI_DCS_SET_DISPLAY_OFF] (env.dsi (transfers w.trace)),
               Event.msleep 20,
               Event.dsi_transfer [MIPI_DCS_ENTER_SLEEP_MODE]
                 (env.dsi (transfers w.trace + 1)),
               Event.usleep_range 10000 15000,
               Event.gpiod_set_value 1,
               Event.regulator_disable] }) := by
  have h : 0 ≤ env.dsi (transfers
      (msleep 20 (mipi_dsi_dcs_set_display_off env w).2).trace) := by
    simpa [msleep, mipi_dsi_dcs_set_display_off, dcs_short_world] using hsl
  have h1 := dcs_short_ret_ok env MIPI_DCS_ENTER_SLEEP_MODE _ h
  have h2 : ¬ (mipi_dsi_dcs_enter_sleep_mode env
      (msleep 20 (mipi_dsi_dcs_set_display_off env w).2)).1 < 0 := by
    rw [mipi_dsi_dcs_enter_sleep_mode, h1]; decide
  simp only [panel_nv3051d_unprepare, if_neg h2]
  simp [mipi_dsi_dcs_enter_sleep_mode, mipi_dsi_dcs_set_display_off, dcs_short_world,
    msleep, usleep_range, gpiod_set_value_cansleep, regulator_disable]

/-- Outcome of `unprepare` when enter-sleep fails. -/
theorem unprepare_fail (env : Env) (ctx : panel_nv3051d) (w : World)
    (hsl : env.dsi (transfers w.trace + 1) < 0) :
    panel_nv3051d_unprepare env ctx w =
      (env.dsi (transfers w.trace + 1),
        { w with trace := w.trace ++
            [Event.dsi_transfer [MIPI_DCS_SET_DISPLAY_OFF] (env.dsi (transfers w.trace)),
             Event.msleep 20,
             Event.dsi_transfer [MIPI_DCS_ENTER_SLEEP_MODE]
               (env.dsi (transfers w.trace + 1))] }) := by
  have h : env.dsi (transfers
      (msleep 20 (mipi_dsi_dcs_set_display_off env w).2).trace) < 0 := by
    simpa [msleep, mipi_dsi_dcs_set_display_off, dcs_short_world] using hsl
  have h1 := dcs_short_ret_fail env MIPI_DCS_ENTER_SLEEP_MODE _ h
  have h2 : (mipi_dsi_dcs_enter_sleep_mode env
      (msleep 20 (mipi_dsi_dcs_set_display_off env w).2)).1 < 0 := by
    rw [mipi_dsi_dcs_enter_sleep_mode, h1]; exact h
  simp only [panel_nv3051d_unprepare, if_pos h2]
  apply Prod.ext
  · rw [mipi_dsi_dcs_enter_sleep_mode, h1]
    simp [msleep, mipi_dsi_dcs_set_display_off, dcs_short_world]
  · simp [mipi_dsi_dcs_enter_sleep_mode, mipi_dsi_dcs_set_display_off, dcs_short_world,
      msleep]

/-- A `prepare` that does not return an error had every call succeed. -/
theorem prepare_success_calls_ok (env : Env) (ctx : panel_nv3051d) (f : InitSeqFn)
    (w : World) (hf : ctx.panel_info.init_sequence = some f)
    (h : 0 ≤ (panel_nv3051d_prepare env ctx w).1) :
    0 ≤ env.regulator_enable (enable_calls w.trace) ∧
    ∀ i, i < f.cmds.length + 2 → 0 ≤ env.dsi (transfers w.trace + i) := by
  have hen : 0 ≤ env.regulator_enable (enable_calls w.trace) := by
    by_contra hneg
    have hlt := not_le.mp hneg
    rw [prepare_enable_fail env ctx w hlt] at h
    exact hneg h
  refine ⟨hen, ?_⟩
  by_contra hex
  push_neg at hex
  have hex2 : ∃ i, i < f.cmds.length + 2 ∧ env.dsi (transfers w.trace + i) < 0 := hex
  have hk := Nat.find_spec hex2
  have hmin : ∀ i, i < Nat.find hex2 → 0 ≤ env.dsi (transfers w.trace + i) := by
    intro i hi
    have := Nat.find_min hex2 hi
    push_neg at this
    exact this (lt_trans hi hk.1)
  generalize Nat.find hex2 = k at hk hmin
  obtain ⟨hk1, hk2⟩ := hk
  have hcases : k < f.cmds.length ∨ k = f.cmds.length ∨ k = f.cmds.length + 1 := by omega
  rcases hcases with hlt | heq | heq
  · rw [prepare_init_fail env ctx f w k hf hlt hen hmin hk2] at h
    exact absurd hk2 (not_lt.mpr h)
  · subst heq
    rw [prepare_exit_sleep_fail env ctx f w hf hen hmin hk2] at h
    exact absurd hk2 (not_lt.mpr h)
  · subst heq
    have hk3 : env.dsi (transfers w.trace + f.cmds.length + 1) < 0 := by
      simpa [Nat.add_assoc] using hk2
    rw [prepare_display_on_fail env ctx f w hf hen hmin hk3] at h
    exact absurd hk3 (not_lt.mpr h)

/-- The replay loop only appends events to the trace, none of them on the
reset line. -/
theorem write_seq_events (env : Env) (cmds : List (List Nat)) :
    ∀ w : World, ∃ evs, (mipi_dsi_dcs_write_seq env cmds w).2
        = { w with trace := w.trace ++ evs } ∧ gpio_calls evs = 0 := by
  induction cmds with
  | nil => intro w; exact ⟨[], by simp [mipi_dsi_dcs_write_seq], rfl⟩
  | cons d rest ih =>
    intro w
    rw [mipi_dsi_dcs_write_seq]
    by_cases h : env.dsi (transfers w.trace) < 0
    · refine ⟨[Event.dsi_transfer d (env.dsi (transfers w.trace))], ?_, rfl⟩
      simp [mipi_dsi_dcs_write_buffer, h]
    · obtain ⟨evs, hevs, hg⟩ := ih (mipi_dsi_dcs_write_buffer env d w).2
      refine ⟨Event.dsi_transfer d (env.dsi (transfers w.trace)) :: evs, ?_, ?_⟩
      · simp only [mipi_dsi_dcs_write_buffer] at hevs ⊢
        rw [if_neg h, hevs]
        simp
      · simp [gpio_calls_cons, Event.is_gpio, hg]

/-- Whatever the channel does, once the rail is enabled `prepare` starts with
the power-on events and does not drive the reset line after them. -/
theorem prepare_events (env : Env) (ctx : panel_nv3051d) (w : World)
    (hen : 0 ≤ env.regulator_enable (enable_calls w.trace)) :
    ∃ rest, (panel_nv3051d_prepare env ctx w).2.trace
        = w.trace ++ (power_on_events (env.regulator_enable (enable_calls w.trace)) ++ rest)
      ∧ gpio_calls rest = 0 := by
  have hen2 : ¬ env.regulator_enable (enable_calls w.trace) < 0 := not_lt.mpr hen
  simp only [panel_nv3051d_prepare, regulator_enable, if_neg hen2,
    usleep_range, gpiod_set_value_cansleep, msleep, mipi_dsi_dcs_exit_sleep_mode,
    mipi_dsi_dcs_set_display_on, disable_vdd, regulator_disable]
  cases hinit : ctx.panel_info.init_sequence with
  | none =>
    simp only [if_neg hen2, dcs_short_world]
    split_ifs <;>
    · simp only [power_on_events, List.append_assoc, List.singleton_append, List.cons_append,
        List.nil_append]
      refine ⟨_, rfl, ?_⟩
      simp [gpio_calls_cons, Event.is_gpio]
  | some f =>
    obtain ⟨evs, hevs, hg⟩ := write_seq_events env f.cmds
      { reset_gpio := Option.map (fun _ => 0) (Option.map (fun _ => 1) w.reset_gpio),
        vdd := w.vdd + 1,
        trace := w.trace ++ [Event.regulator_enable
            (env.regulator_enable (enable_calls w.trace))] ++
          [Event.usleep_range 2000 3000] ++ [Event.gpiod_set_value 1] ++ [Event.msleep 150] ++
          [Event.gpiod_set_value 0] ++ [Event.msleep 20] }
    simp only [call_eq_write_seq, dcs_short_world, hevs]
    split_ifs <;>
    · simp only [power_on_events, List.append_assoc, List.singleton_append, List.cons_append,
        List.nil_append]
      refine ⟨_, rfl, ?_⟩
      simp [gpio_calls_cons, Event.is_gpio, hg]

/-! ## The wake-latency scan -/

theorem guarded_skip_xfer (env : Env) (cmds : List (List Nat))
    (hc : ∀ d, d ∈ cmds → d ≠ [MIPI_DCS_EXIT_SLEEP_MODE] ∧ d ≠ [MIPI_DCS_SET_DISPLAY_ON]) :
    ∀ (n : Nat) (since : Option Nat) (rest : List Event),
      display_on_guarded_from since (xfer_events env n cmds ++ rest)
        = display_on_guarded_from since rest := by
  induction cmds with
  | nil => intro n since rest; rfl
  | cons d ds ih =>
    intro n since rest
    have hd := hc d (List.mem_cons_self _ _)
    have hds : ∀ x, x ∈ ds → x ≠ [MIPI_DCS_EXIT_SLEEP_MODE] ∧ x ≠ [MIPI_DCS_SET_DISPLAY_ON] :=
      fun x hx => hc x (List.mem_cons_of_mem _ hx)
    have hmap : Option.map (fun t => t + 0) since = since := by
      cases since <;> rfl
    simp [xfer_events, display_on_guarded_from, Event.is_display_on, Event.is_exit_sleep,
      Event.min_wait_us, hd.1, hd.2, hmap, ih hds]

theorem wait_after_last_append (a b : List Event) (t : Nat)
    (h : wait_after_last_display_on b = some t) :
    wait_after_last_display_on (a ++ b) = some t := by
  induction a with
  | nil => exact h
  | cons e rest ih => simp [wait_after_last_display_on, ih]

theorem std_cmds_no_bare_dcs :
    ∀ d, d ∈ panel_nv3051d_init_sequence_cmds →
      d ≠ [MIPI_DCS_EXIT_SLEEP_MODE] ∧ d ≠ [MIPI_DCS_SET_DISPLAY_ON] := by
  set_option maxRecDepth 100000 in decide

/-- Every variant of the catalog has an init sequence function. -/
theorem catalog_init_sequence (info : nv3051d_panel_info) (hinfo : info ∈ catalog) :
    ∃ f, info.init_sequence = some f ∧ init_cmds info = f.cmds := by
  simp only [catalog, newvision_nv3051d_of_match, List.map, List.mem_cons,
    List.mem_singleton, List.not_mem_nil, or_false] at hinfo
  rcases hinfo with rfl | rfl | rfl | rfl
  · exact ⟨_, rfl, rfl⟩
  · exact ⟨_, rfl, rfl⟩
  · exact ⟨_, rfl, rfl⟩
  · exact ⟨_, rfl, rfl⟩

/-! ## Claims -/

/-- C1 (amended): for every variant of the catalog and every position `k`
inside its init sequence, when `prepare` is called from `Off`, the rail
enable succeeds, sends `0..k-1` succeed and the send at position `k` fails,
`prepare` ends in `Off`, returns the (negative) error code of that failing
send, exactly the commands `0..k` reached the channel, and the power rail
was enabled once and disabled once.  The returned value is the bare channel
error code; the position is not part of it. -/
theorem C1_prepare_init_failure_unwinds (env : Env) (info : nv3051d_panel_info) (w : World)
    (k : Nat) (hinfo : info ∈ catalog) (hk : k < (init_cmds info).length)
    (hoff : w.is_off)
    (hen : 0 ≤ env.regulator_enable (enable_calls w.trace))
    (hok : ∀ i, i < k → 0 ≤ env.dsi (transfers w.trace + i))
    (hfail : env.dsi (transfers w.trace + k) < 0) :
    (panel_nv3051d_prepare env ⟨info⟩ w).2.is_off ∧
    (panel_nv3051d_prepare env ⟨info⟩ w).1 = env.dsi (transfers w.trace + k) ∧
    (panel_nv3051d_prepare env ⟨info⟩ w).1 < 0 ∧
    new_events w (panel_nv3051d_prepare env ⟨info⟩ w).2 =
      power_on_events (env.regulator_enable (enable_calls w.trace))
        ++ xfer_events env (transfers w.trace) ((init_cmds info).take (k + 1))
        ++ [Event.regulator_disable] ∧
    sent_payloads (new_events w (panel_nv3051d_prepare env ⟨info⟩ w).2) =
      (init_cmds info).take (k + 1) ∧
    enable_calls (new_events w (panel_nv3051d_prepare env ⟨info⟩ w).2) = 1 ∧
    disable_calls (new_events w (panel_nv3051d_prepare env ⟨info⟩ w).2) = 1 := by
  obtain ⟨f, hf, hc⟩ := catalog_init_sequence info hinfo
  rw [hc] at hk ⊢
  have hrun := prepare_init_fail env ⟨info⟩ f w k hf hk hen hok hfail
  have hev := new_events_append w (panel_nv3051d_prepare env ⟨info⟩ w).2 _
    (by rw [hrun])
  rw [hev]
  refine ⟨?_, ?_, ?_, rfl, ?_, ?_, ?_⟩
  · rw [hrun]; exact hoff
  · rw [hrun]
  · rw [hrun]; exact hfail
  · simp [sent_payloads]
  · simp [enable_calls_cons, Event.is_enable]
  · simp [disable_calls_cons, Event.is_disable]

/-- C1 witness: the r36s sequence starts `FF 30`, `FF 52`, `FF 01`; with the
channel failing on the 2nd command, `prepare` from the probed state unwinds
as stated. -/
theorem C1_prepare_init_failure_unwinds_witness :
    (panel_nv3051d_prepare (env_fail_at 1 (-5)) ⟨nv3051d_r36s_info⟩
        (panel_nv3051d_probe true)).2.is_off ∧
    (panel_nv3051d_prepare (env_fail_at 1 (-5)) ⟨nv3051d_r36s_info⟩
        (panel_nv3051d_probe true)).1 = -5 ∧
    sent_payloads (new_events (panel_nv3051d_probe true)
      (panel_nv3051d_prepare (env_fail_at 1 (-5)) ⟨nv3051d_r36s_info⟩
        (panel_nv3051d_probe true)).2) = [[0xff, 0x30], [0xff, 0x52]] ∧
    enable_calls (new_events (panel_nv3051d_probe true)
      (panel_nv3051d_prepare (env_fail_at 1 (-5)) ⟨nv3051d_r36s_info⟩
        (panel_nv3051d_probe true)).2) = 1 ∧
    disable_calls (new_events (panel_nv3051d_probe true)
      (panel_nv3051d_prepare (env_fail_at 1 (-5)) ⟨nv3051d_r36s_info⟩
        (panel_nv3051d_probe true)).2) = 1 := by
  have h := C1_prepare_init_failure_unwinds (env_fail_at 1 (-5)) nv3051d_r36s_info
    (panel_nv3051d_probe true) 1 (by decide)
    (by set_option maxRecDepth 100000 in decide) (by decide) (by decide)
    (by intro i hi; interval_cases i; decide) (by decide)
  exact ⟨h.1, h.2.1, h.2.2.2.2.1, h.2.2.2.2.2.1, h.2.2.2.2.2.2⟩

/-- C1 counterexample: on the r36s variant a channel failure with code -5 at
position 1 and one at position 2 make `prepare` return the same value, -5,
although 2 commands reached the channel in the first run and 3 in the
second: what `prepare` reports does not carry the failing position. -/
theorem C1_reported_error_has_no_position :
    (panel_nv3051d_prepare (env_fail_at 1 (-5)) ⟨nv3051d_r36s_info⟩
        (panel_nv3051d_probe true)).1 = -5 ∧
    (panel_nv3051d_prepare (env_fail_at 2 (-5)) ⟨nv3051d_r36s_info⟩
        (panel_nv3051d_probe true)).1 = -5 ∧
    sent_payloads (new_events (panel_nv3051d_probe true)
      (panel_nv3051d_prepare (env_fail_at 1 (-5)) ⟨nv3051d_r36s_info⟩
        (panel_nv3051d_probe true)).2) = [[0xff, 0x30], [0xff, 0x52]] ∧
    sent_payloads (new_events (panel_nv3051d_probe true)
      (panel_nv3051d_prepare (env_fail_at 2 (-5)) ⟨nv3051d_r36s_info⟩
        (panel_nv3051d_probe true)).2) = [[0xff, 0x30], [0xff, 0x52], [0xff, 0x01]] := by
  decide

/-- C2: for every variant of the catalog, its init-sequence function sends
the table in order, each command at most once.  If the first failing send
is at position `k`, exactly the commands `0..k` reached the channel
(`k + 1` transfers, no retry) and the function returns that send's error;
if no send fails, the whole table reached the channel, in order and
unmodified, and the function returns 0.  Nothing but the channel is
touched. -/
theorem C2_replay_in_order_until_first_failure (env : Env) (info : nv3051d_panel_info)
    (w : World) (hinfo : info ∈ catalog) :
    ∃ f, info.init_sequence = some f ∧ f.cmds = init_cmds info ∧
      (∀ k, k < f.cmds.length →
        (∀ i, i < k → 0 ≤ env.dsi (transfers w.trace + i)) →
        env.dsi (transfers w.trace + k) < 0 →
          (f.call env w).1 = env.dsi (transfers w.trace + k) ∧
          new_events w (f.call env w).2 =
            xfer_events env (transfers w.trace) (f.cmds.take (k + 1)) ∧
          sent_payloads (new_events w (f.call env w).2) = f.cmds.take (k + 1) ∧
          (new_events w (f.call env w).2).length = k + 1 ∧
          (f.call env w).2.reset_gpio = w.reset_gpio ∧
          (f.call env w).2.vdd = w.vdd) ∧
      ((∀ i, i < f.cmds.length → 0 ≤ env.dsi (transfers w.trace + i)) →
          (f.call env w).1 = 0 ∧
          new_events w (f.call env w).2 = xfer_events env (transfers w.trace) f.cmds ∧
          sent_payloads (new_events w (f.call env w).2) = f.cmds ∧
          (new_events w (f.call env w).2).length = f.cmds.length ∧
          (f.call env w).2.reset_gpio = w.reset_gpio ∧
          (f.call env w).2.vdd = w.vdd) := by
  obtain ⟨f, hf, hc⟩ := catalog_init_sequence info hinfo
  refine ⟨f, hf, hc.symm, ?_, ?_⟩
  · intro k hk hok hfail
    have hrun := write_seq_fail env f.cmds w k hk hok hfail
    rw [call_eq_write_seq]
    have hev := new_events_append w (mipi_dsi_dcs_write_seq env f.cmds w).2 _
      (by rw [hrun])
    rw [hev]
    refine ⟨by rw [hrun], rfl, by simp, ?_, by rw [hrun], by rw [hrun]⟩
    simp only [xfer_events_length, List.length_take]
    omega
  · intro hok
    have hrun := write_seq_ok env f.cmds w hok
    rw [call_eq_write_seq]
    have hev := new_events_append w (mipi_dsi_dcs_write_seq env f.cmds w).2 _
      (by rw [hrun])
    rw [hev]
    exact ⟨by rw [hrun], rfl, by simp, by simp, by rw [hrun], by rw [hrun]⟩

/-- C2 witness: the r36s init sequence on a channel failing at its 2nd
transfer sends `FF 30`, `FF 52` and returns the error; on a channel that
never fails it sends all 155 commands and returns 0. -/
theorem C2_replay_in_order_until_first_failure_witness :
    (panel_nv3051d_init_sequence_r36s (env_fail_at 1 (-5)) (panel_nv3051d_probe true)).1 = -5 ∧
    sent_payloads (new_events (panel_nv3051d_probe true)
      (panel_nv3051d_init_sequence_r36s (env_fail_at 1 (-5)) (panel_nv3051d_probe true)).2)
      = [[0xff, 0x30], [0xff, 0x52]] ∧
    (panel_nv3051d_init_sequence_r36s env_ok (panel_nv3051d_probe true)).1 = 0 ∧
    sent_payloads (new_events (panel_nv3051d_probe true)
      (panel_nv3051d_init_sequence_r36s env_ok (panel_nv3051d_probe true)).2)
      = panel_nv3051d_init_sequence_r36s_cmds := by
  obtain ⟨f, hf, -, hfail, -⟩ := C2_replay_in_order_until_first_failure (env_fail_at 1 (-5))
    nv3051d_r36s_info (panel_nv3051d_probe true) (by decide)
  obtain ⟨g, hg, -, -, hok⟩ := C2_replay_in_order_until_first_failure env_ok
    nv3051d_r36s_info (panel_nv3051d_probe true) (by decide)
  have hf2 : f = InitSeqFn.panel_nv3051d_init_sequence_r36s := (Option.some.inj hf).symm
  have hg2 : g = InitSeqFn.panel_nv3051d_init_sequence_r36s := (Option.some.inj hg).symm
  subst hf2 hg2
  have h1 := hfail 1 (by set_option maxRecDepth 100000 in decide)
    (by intro i hi; interval_cases i; decide) (by decide)
  have h2 := hok (by intro i _; exact le_refl _)
  exact ⟨h1.1, h1.2.2.1, h2.1, h2.2.2.1⟩

/-- C3 (amended): for every variant of the catalog, when `prepare` is called
from `Off`, power-on and the init sequence succeed and the standard
exit-sleep command fails, or exit-sleep succeeds and the standard display-on
command fails, `prepare` returns that send's error and ends in `Off`; the
only thing it does after the failing send is to disable the power rail,
once.  The reset line is not driven again: it was driven twice during
power-on and stays released. -/
theorem C3_prepare_standard_command_failure (env : Env) (info : nv3051d_panel_info)
    (w : World) (hinfo : info ∈ catalog) (hoff : w.is_off)
    (hen : 0 ≤ env.regulator_enable (enable_calls w.trace)) :
    ((∀ i, i < (init_cmds info).length → 0 ≤ env.dsi (transfers w.trace + i)) →
      env.dsi (transfers w.trace + (init_cmds info).length) < 0 →
        (panel_nv3051d_prepare env ⟨info⟩ w).1
          = env.dsi (transfers w.trace + (init_cmds info).length) ∧
        (panel_nv3051d_prepare env ⟨info⟩ w).2.is_off ∧
        new_events w (panel_nv3051d_prepare env ⟨info⟩ w).2 =
          power_on_events (env.regulator_enable (enable_calls w.trace))
            ++ xfer_events env (transfers w.trace) (init_cmds info)
            ++ [Event.dsi_transfer [MIPI_DCS_EXIT_SLEEP_MODE]
                  (env.dsi (transfers w.trace + (init_cmds info).length)),
                Event.regulator_disable] ∧
        disable_calls (new_events w (panel_nv3051d_prepare env ⟨info⟩ w).2) = 1 ∧
        gpio_calls (new_events w (panel_nv3051d_prepare env ⟨info⟩ w).2) = 2 ∧
        (panel_nv3051d_prepare env ⟨info⟩ w).2.reset_gpio
          = w.reset_gpio.map (fun _ => 0)) ∧
    ((∀ i, i < (init_cmds info).length + 1 → 0 ≤ env.dsi (transfers w.trace + i)) →
      env.dsi (transfers w.trace + (init_cmds info).length + 1) < 0 →
        (panel_nv3051d_prepare env ⟨info⟩ w).1
          = env.dsi (transfers w.trace + (init_cmds info).length + 1) ∧
        (panel_nv3051d_prepare env ⟨info⟩ w).2.is_off ∧
        new_events w (panel_nv3051d_prepare env ⟨info⟩ w).2 =
          power_on_events (env.regulator_enable (enable_calls w.trace))
            ++ xfer_events env (transfers w.trace) (init_cmds info)
            ++ [Event.dsi_transfer [MIPI_DCS_EXIT_SLEEP_MODE]
                  (env.dsi (transfers w.trace + (init_cmds info).length)),
                Event.msleep 200,
                Event.dsi_transfer [MIPI_DCS_SET_DISPLAY_ON]
                  (env.dsi (transfers w.trace + (init_cmds info).length + 1)),
                Event.regulator_disable] ∧
        disable_calls (new_events w (panel_nv3051d_prepare env ⟨info⟩ w).2) = 1 ∧
        gpio_calls (new_events w (panel_nv3051d_prepare env ⟨info⟩ w).2) = 2 ∧
        (panel_nv3051d_prepare env ⟨info⟩ w).2.reset_gpio
          = w.reset_gpio.map (fun _ => 0)) := by
  obtain ⟨f, hf, hc⟩ := catalog_init_sequence info hinfo
  rw [hc]
  constructor
  · intro hok hfail
    have hrun := prepare_exit_sleep_fail env ⟨info⟩ f w hf hen hok hfail
    have hev := new_events_append w (panel_nv3051d_prepare env ⟨info⟩ w).2 _
      (by rw [hrun])
    rw [hev]
    refine ⟨by rw [hrun], by rw [hrun]; exact hoff, rfl, ?_, ?_, by rw [hrun]⟩
    · simp [disable_calls_cons, Event.is_disable]
    · simp [gpio_calls_cons, Event.is_gpio]
  · intro hok hfail
    have hrun := prepare_display_on_fail env ⟨info⟩ f w hf hen hok hfail
    have hev := new_events_append w (panel_nv3051d_prepare env ⟨info⟩ w).2 _
      (by rw [hrun])
    rw [hev]
    refine ⟨by rw [hrun], by rw [hrun]; exact hoff, rfl, ?_, ?_, by rw [hrun]⟩
    · simp [disable_calls_cons, Event.is_disable]
    · simp [gpio_calls_cons, Event.is_gpio]

/-- C3 witness: the rk2023 variant (183 init commands) from the probed state,
with the exit-sleep transfer (number 183) failing with code -5. -/
theorem C3_prepare_standard_command_failure_witness :
    (panel_nv3051d_prepare (env_fail_at 183 (-5)) ⟨nv3051d_rk2023_info⟩
        (panel_nv3051d_probe true)).1 = -5 ∧
    (panel_nv3051d_prepare (env_fail_at 183 (-5)) ⟨nv3051d_rk2023_info⟩
        (panel_nv3051d_probe true)).2.is_off ∧
    disable_calls (new_events (panel_nv3051d_probe true)
      (panel_nv3051d_prepare (env_fail_at 183 (-5)) ⟨nv3051d_rk2023_info⟩
        (panel_nv3051d_probe true)).2) = 1 ∧
    (panel_nv3051d_prepare (env_fail_at 183 (-5)) ⟨nv3051d_rk2023_info⟩
        (panel_nv3051d_probe true)).2.reset_gpio = some 0 := by
  have h := (C3_prepare_standard_command_failure (env_fail_at 183 (-5)) nv3051d_rk2023_info
    (panel_nv3051d_probe true) (by decide) (by decide) (by decide)).1
    (by
      intro i hi
      have hlen : (init_cmds nv3051d_rk2023_info).length = 183 := by
        set_option maxRecDepth 100000 in decide
      have hne : ¬ (i = 183) := by omega
      simp [env_fail_at, panel_nv3051d_probe, hne])
    (by set_option maxRecDepth 100000 in decide)
  exact ⟨h.1, h.2.1, h.2.2.2.1, h.2.2.2.2.2⟩

/-- C3 counterexample: on the rg351v variant, with power-on and all 183 init
commands succeeding and the exit-sleep command failing with code -5,
`prepare` returns -5 and after the failing send it only disables the rail:
the reset line was driven twice in all (the power-on pulse) and is left
released (level 0), not asserted. -/
theorem C3_failure_path_leaves_reset_released :
    (panel_nv3051d_prepare (env_fail_at 183 (-5)) ⟨nv3051d_rg351v_info⟩
        (panel_nv3051d_probe true)).1 = -5 ∧
    (new_events (panel_nv3051d_probe true)
      (panel_nv3051d_prepare (env_fail_at 183 (-5)) ⟨nv3051d_rg351v_info⟩
        (panel_nv3051d_probe true)).2).drop (6 + 183)
      = [Event.dsi_transfer [MIPI_DCS_EXIT_SLEEP_MODE] (-5), Event.regulator_disable] ∧
    gpio_calls (new_events (panel_nv3051d_probe true)
      (panel_nv3051d_prepare (env_fail_at 183 (-5)) ⟨nv3051d_rg351v_info⟩
        (panel_nv3051d_probe true)).2) = 2 ∧
    (panel_nv3051d_prepare (env_fail_at 183 (-5)) ⟨nv3051d_rg351v_info⟩
        (panel_nv3051d_probe true)).2.reset_gpio = some 0 := by
  set_option maxRecDepth 100000 in decide

/-- C4: when enabling the power rail fails at the start of `prepare`,
`prepare` returns that error and nothing else happens: the only event is the
failed enable call, the rail count and the reset line are unchanged (so
`Off` stays `Off`), the reset line is not driven, no sleep is taken, no
command is sent and the rail is not disabled. -/
theorem C4_prepare_enable_failure_changes_nothing (env : Env) (ctx : panel_nv3051d)
    (w : World) (hen : env.regulator_enable (enable_calls w.trace) < 0) :
    (panel_nv3051d_prepare env ctx w).1 = env.regulator_enable (enable_calls w.trace) ∧
    (panel_nv3051d_prepare env ctx w).2.vdd = w.vdd ∧
    (panel_nv3051d_prepare env ctx w).2.reset_gpio = w.reset_gpio ∧
    (w.is_off → (panel_nv3051d_prepare env ctx w).2.is_off) ∧
    new_events w (panel_nv3051d_prepare env ctx w).2 =
      [Event.regulator_enable (env.regulator_enable (enable_calls w.trace))] ∧
    gpio_calls (new_events w (panel_nv3051d_prepare env ctx w).2) = 0 ∧
    sleep_calls (new_events w (panel_nv3051d_prepare env ctx w).2) = 0 ∧
    transfers (new_events w (panel_nv3051d_prepare env ctx w).2) = 0 ∧
    disable_calls (new_events w (panel_nv3051d_prepare env ctx w).2) = 0 := by
  have hrun := prepare_enable_fail env ctx w hen
  have hev := new_events_append w (panel_nv3051d_prepare env ctx w).2 _ (by rw [hrun])
  rw [hev]
  refine ⟨by rw [hrun], by rw [hrun], by rw [hrun], ?_, rfl, rfl, rfl, rfl, rfl⟩
  intro hoff
  rw [hrun]
  exact hoff

/-- C4 witness: the r36s variant from the probed state with the regulator
refusing to enable (code -22). -/
theorem C4_prepare_enable_failure_changes_nothing_witness :
    (panel_nv3051d_prepare { regulator_enable := fun _ => -22, dsi := fun _ => 0 }
      ⟨nv3051d_r36s_info⟩ (panel_nv3051d_probe true)).1 = -22 ∧
    (panel_nv3051d_prepare { regulator_enable := fun _ => -22, dsi := fun _ => 0 }
      ⟨nv3051d_r36s_info⟩ (panel_nv3051d_probe true)).2.is_off ∧
    new_events (panel_nv3051d_probe true)
      (panel_nv3051d_prepare { regulator_enable := fun _ => -22, dsi := fun _ => 0 }
        ⟨nv3051d_r36s_info⟩ (panel_nv3051d_probe true)).2
      = [Event.regulator_enable (-22)] := by
  have h := C4_prepare_enable_failure_changes_nothing
    { regulator_enable := fun _ => -22, dsi := fun _ => 0 }
    ⟨nv3051d_r36s_info⟩ (panel_nv3051d_probe true) (by decide)
  exact ⟨h.1, h.2.2.2.1 (by decide), h.2.2.2.2.1⟩

/-- C5: for every `unprepare` from `On` in which enter-sleep succeeds, whether
or not display-off succeeded, `unprepare` returns 0 and ends in `Off`, and
its events are, in this order: display-off sent, a sleep of at least 20 ms,
enter-sleep sent, a sleep of at least 10 ms, reset asserted, rail disabled;
the rail is disabled exactly once. -/
theorem C5_unprepare_powers_down_in_order (env : Env) (ctx : panel_nv3051d) (w : World)
    (hon : w.is_on) (hsl : 0 ≤ env.dsi (transfers w.trace + 1)) :
    (panel_nv3051d_unprepare env ctx w).1 = 0 ∧
    (panel_nv3051d_unprepare env ctx w).2.is_off ∧
    new_events w (panel_nv3051d_unprepare env ctx w).2 =
      [Event.dsi_transfer [MIPI_DCS_SET_DISPLAY_OFF] (env.dsi (transfers w.trace)),
       Event.msleep 20,
       Event.dsi_transfer [MIPI_DCS_ENTER_SLEEP_MODE] (env.dsi (transfers w.trace + 1)),
       Event.usleep_range 10000 15000,
       Event.gpiod_set_value 1,
       Event.regulator_disable] ∧
    20 * 1000 ≤ (Event.msleep 20).min_wait_us ∧
    10 * 1000 ≤ (Event.usleep_range 10000 15000).min_wait_us ∧
    disable_calls (new_events w (panel_nv3051d_unprepare env ctx w).2) = 1 ∧
    (panel_nv3051d_unprepare env ctx w).2.reset_gpio = w.reset_gpio.map (fun _ => 1) := by
  have hrun := unprepare_ok env ctx w hsl
  have hev := new_events_append w (panel_nv3051d_unprepare env ctx w).2 _ (by rw [hrun])
  rw [hev]
  refine ⟨by rw [hrun], ?_, rfl, by decide, by decide, rfl, by rw [hrun]⟩
  rw [hrun]
  have h1 : w.vdd = 1 := hon
  show w.vdd - 1 = 0
  omega

/-- C5 witness: a panel that is `On`, whose display-off send fails (code -5)
and whose enter-sleep send succeeds. -/
theorem C5_unprepare_powers_down_in_order_witness :
    (panel_nv3051d_unprepare (env_fail_at 0 (-5)) ⟨nv3051d_r36s_info⟩
      { reset_gpio := some 0, vdd := 1, trace := [] }).1 = 0 ∧
    (panel_nv3051d_unprepare (env_fail_at 0 (-5)) ⟨nv3051d_r36s_info⟩
      { reset_gpio := some 0, vdd := 1, trace := [] }).2.is_off ∧
    new_events { reset_gpio := some 0, vdd := 1, trace := [] }
      (panel_nv3051d_unprepare (env_fail_at 0 (-5)) ⟨nv3051d_r36s_info⟩
        { reset_gpio := some 0, vdd := 1, trace := [] }).2 =
      [Event.dsi_transfer [MIPI_DCS_SET_DISPLAY_OFF] (-5),
       Event.msleep 20,
       Event.dsi_transfer [MIPI_DCS_ENTER_SLEEP_MODE] 0,
       Event.usleep_range 10000 15000,
       Event.gpiod_set_value 1,
       Event.regulator_disable] := by
  have h := C5_unprepare_powers_down_in_order (env_fail_at 0 (-5)) ⟨nv3051d_r36s_info⟩
    { reset_gpio := some 0, vdd := 1, trace := [] } (by decide) (by decide)
  exact ⟨h.1, h.2.1, h.2.2.1⟩

/-- C6: when the enter-sleep command fails during `unprepare` from `On`,
`unprepare` returns that error and the panel is not `Off`: nothing happens
after the failing send, the reset line is not driven and the power rail is
not disabled. -/
theorem C6_unprepare_enter_sleep_failure_keeps_power (env : Env) (ctx : panel_nv3051d)
    (w : World) (hon : w.is_on) (hsl : env.dsi (transfers w.trace + 1) < 0) :
    (panel_nv3051d_unprepare env ctx w).1 = env.dsi (transfers w.trace + 1) ∧
    ¬ (panel_nv3051d_unprepare env ctx w).2.is_off ∧
    (panel_nv3051d_unprepare env ctx w).2.is_on ∧
    new_events w (panel_nv3051d_unprepare env ctx w).2 =
      [Event.dsi_transfer [MIPI_DCS_SET_DISPLAY_OFF] (env.dsi (transfers w.trace)),
       Event.msleep 20,
       Event.dsi_transfer [MIPI_DCS_ENTER_SLEEP_MODE] (env.dsi (transfers w.trace + 1))] ∧
    gpio_calls (new_events w (panel_nv3051d_unprepare env ctx w).2) = 0 ∧
    disable_calls (new_events w (panel_nv3051d_unprepare env ctx w).2) = 0 ∧
    (panel_nv3051d_unprepare env ctx w).2.reset_gpio = w.reset_gpio ∧
    (panel_nv3051d_unprepare env ctx w).2.vdd = w.vdd := by
  have hrun := unprepare_fail env ctx w hsl
  have hev := new_events_append w (panel_nv3051d_unprepare env ctx w).2 _ (by rw [hrun])
  rw [hev]
  have h1 : w.vdd = 1 := hon
  refine ⟨by rw [hrun], ?_, ?_, rfl, rfl, rfl, by rw [hrun], by rw [hrun]⟩
  · rw [hrun]
    show ¬ (w.vdd = 0)
    omega
  · rw [hrun]
    exact hon

/-- C6 witness: a panel that is `On`, whose display-off send succeeds and
whose enter-sleep send fails with code -5. -/
theorem C6_unprepare_enter_sleep_failure_keeps_power_witness :
    (panel_nv3051d_unprepare (env_fail_at 1 (-5)) ⟨nv3051d_r36s_info⟩
      { reset_gpio := some 0, vdd := 1, trace := [] }).1 = -5 ∧
    ¬ (panel_nv3051d_unprepare (env_fail_at 1 (-5)) ⟨nv3051d_r36s_info⟩
      { reset_gpio := some 0, vdd := 1, trace := [] }).2.is_off ∧
    new_events { reset_gpio := some 0, vdd := 1, trace := [] }
      (panel_nv3051d_unprepare (env_fail_at 1 (-5)) ⟨nv3051d_r36s_info⟩
        { reset_gpio := some 0, vdd := 1, trace := [] }).2 =
      [Event.dsi_transfer [MIPI_DCS_SET_DISPLAY_OFF] 0,
       Event.msleep 20,
       Event.dsi_transfer [MIPI_DCS_ENTER_SLEEP_MODE] (-5)] := by
  have h := C6_unprepare_enter_sleep_failure_keeps_power (env_fail_at 1 (-5))
    ⟨nv3051d_r36s_info⟩ { reset_gpio := some 0, vdd := 1, trace := [] }
    (by decide) (by decide)
  exact ⟨h.1, h.2.1, h.2.2.2.1⟩

/-- Wake latency of the standard commands, and of the whole traffic outside
r36s.  In every successful `prepare`, for every variant of the
catalog, the channel traffic ends with the standard exit-sleep command, a
sleep of 200 ms, the standard display-on command and a sleep of at least
10 ms, so at least 10 ms of sleeping follows the last display-on.  For the
variants other than r36s (rg351v, rg353p, rk2023) no display-on command
reaches the channel until at least 200 ms after the first exit-sleep
command, a command being the bare DCS byte as `prepare` sends it: the only
write of their init sequence that starts with 0x11 or 0x29 is the register
write `29 01` at position 12, made after the select of register page 1. -/
theorem wake_latency_of_standard_commands (env : Env) (info : nv3051d_panel_info)
    (w : World) (hinfo : info ∈ catalog)
    (hsucc : (panel_nv3051d_prepare env ⟨info⟩ w).1 = 0) :
    new_events w (panel_nv3051d_prepare env ⟨info⟩ w).2 =
      power_on_events (env.regulator_enable (enable_calls w.trace))
        ++ xfer_events env (transfers w.trace) (init_cmds info)
        ++ [Event.dsi_transfer [MIPI_DCS_EXIT_SLEEP_MODE]
              (env.dsi (transfers w.trace + (init_cmds info).length)),
            Event.msleep 200,
            Event.dsi_transfer [MIPI_DCS_SET_DISPLAY_ON]
              (env.dsi (transfers w.trace + (init_cmds info).length + 1)),
            Event.usleep_range 10000 15000] ∧
    200 * 1000 ≤ (Event.msleep 200).min_wait_us ∧
    wait_after_last_display_on (new_events w (panel_nv3051d_prepare env ⟨info⟩ w).2)
      = some (10 * 1000) ∧
    (info ≠ nv3051d_r36s_info →
      display_on_guarded (new_events w (panel_nv3051d_prepare env ⟨info⟩ w).2) = true ∧
      (init_cmds info).filter (fun d => decide (d.head? = some MIPI_DCS_EXIT_SLEEP_MODE ∨
        d.head? = some MIPI_DCS_SET_DISPLAY_ON)) = [[0x29, 0x01]] ∧
      (init_cmds info).take 13 =
        [[0xFF, 0x30], [0xFF, 0x52], [0xFF, 0x01], [0xE3, 0x00], [0x03, 0x40], [0x04, 0x00],
         [0x05, 0x03], [0x24, 0x12], [0x25, 0x1E], [0x26, 0x28], [0x27, 0x52], [0x28, 0x57],
         [0x29, 0x01]]) := by
  obtain ⟨f, hf, hc⟩ := catalog_init_sequence info hinfo
  have hcalls := prepare_success_calls_ok env ⟨info⟩ f w hf (le_of_eq hsucc.symm)
  have hrun := prepare_ok env ⟨info⟩ f w hf hcalls.1 hcalls.2
  have hev := new_events_append w (panel_nv3051d_prepare env ⟨info⟩ w).2 _ (by rw [hrun])
  rw [hev, hc]
  refine ⟨rfl, by decide, ?_, ?_⟩
  · apply wait_after_last_append
    simp [wait_after_last_display_on, Event.is_display_on, total_wait_us, Event.min_wait_us,
      MIPI_DCS_SET_DISPLAY_ON]
  · intro hne
    have hstd : f = InitSeqFn.panel_nv3051d_init_sequence := by
      simp only [catalog, newvision_nv3051d_of_match, List.map, List.mem_cons,
        List.mem_singleton, List.not_mem_nil, or_false] at hinfo
      rcases hinfo with rfl | rfl | rfl | rfl
      · exact absurd rfl hne
      · exact (Option.some.inj hf).symm
      · exact (Option.some.inj hf).symm
      · exact (Option.some.inj hf).symm
    subst hstd
    refine ⟨?_, by set_option maxRecDepth 100000 in decide,
      by set_option maxRecDepth 100000 in decide⟩
    have hno : ∀ d, d ∈ InitSeqFn.panel_nv3051d_init_sequence.cmds →
        d ≠ [MIPI_DCS_EXIT_SLEEP_MODE] ∧ d ≠ [MIPI_DCS_SET_DISPLAY_ON] :=
      std_cmds_no_bare_dcs
    generalize InitSeqFn.panel_nv3051d_init_sequence.cmds = cm at hno ⊢
    simp only [display_on_guarded, power_on_events, List.append_assoc, List.cons_append,
      List.nil_append]
    simp only [display_on_guarded_from, Event.is_display_on, Event.is_exit_sleep,
      Option.map_none', Bool.false_eq_true, if_false]
    rw [guarded_skip_xfer env cm hno]
    simp [display_on_guarded_from, Event.is_display_on, Event.is_exit_sleep,
      Event.min_wait_us, MIPI_DCS_SET_DISPLAY_ON, MIPI_DCS_EXIT_SLEEP_MODE]

/-- Instance: a successful `prepare` of the rk2023 variant from the probed
state keeps the wake latency. -/
theorem wake_latency_of_standard_commands_rk2023 :
    (panel_nv3051d_prepare env_ok ⟨nv3051d_rk2023_info⟩ (panel_nv3051d_probe true)).1 = 0 ∧
    wait_after_last_display_on (new_events (panel_nv3051d_probe true)
      (panel_nv3051d_prepare env_ok ⟨nv3051d_rk2023_info⟩ (panel_nv3051d_probe true)).2)
      = some (10 * 1000) ∧
    display_on_guarded (new_events (panel_nv3051d_probe true)
      (panel_nv3051d_prepare env_ok ⟨nv3051d_rk2023_info⟩ (panel_nv3051d_probe true)).2)
      = true := by
  have hs : (panel_nv3051d_prepare env_ok ⟨nv3051d_rk2023_info⟩
      (panel_nv3051d_probe true)).1 = 0 := by
    set_option maxRecDepth 100000 in decide
  have h := wake_latency_of_standard_commands env_ok nv3051d_rk2023_info
    (panel_nv3051d_probe true) (by decide) hs
  exact ⟨hs, h.2.2.1, (h.2.2.2 (by decide)).1⟩

/-- C7, the code at its failing input: a successful `prepare` of the r36s
variant from the probed state.  C7 requires that no display-on command
reaches the channel until at least 200 ms of sleeping after the first
exit-sleep command.  The r36s init sequence ends with the bare commands 0x11
and 0x29 back to back (transfers 153 and 154), so a display-on command
reaches the channel with no sleep at all after the first exit-sleep command,
before `prepare` sends its own exit-sleep, sleeps 200 ms and sends its own
display-on. -/
theorem C7_r36s_display_on_without_wake_latency :
    (panel_nv3051d_prepare env_ok ⟨nv3051d_r36s_info⟩ (panel_nv3051d_probe true)).1 = 0 ∧
    (new_events (panel_nv3051d_probe true)
      (panel_nv3051d_prepare env_ok ⟨nv3051d_r36s_info⟩
        (panel_nv3051d_probe true)).2).drop (6 + 153)
      = [Event.dsi_transfer [MIPI_DCS_EXIT_SLEEP_MODE] 0,
         Event.dsi_transfer [MIPI_DCS_SET_DISPLAY_ON] 0,
         Event.dsi_transfer [MIPI_DCS_EXIT_SLEEP_MODE] 0,
         Event.msleep 200,
         Event.dsi_transfer [MIPI_DCS_SET_DISPLAY_ON] 0,
         Event.usleep_range 10000 15000] ∧
    display_on_guarded (new_events (panel_nv3051d_probe true)
      (panel_nv3051d_prepare env_ok ⟨nv3051d_r36s_info⟩ (panel_nv3051d_probe true)).2)
      = false := by
  set_option maxRecDepth 100000 in decide

/-- C8: in every `prepare` whose rail enable succeeds, whatever happens on
the channel, the events start, before any command is sent, with: rail
enabled, a sleep of at least 2 ms, reset asserted, a sleep of at least
150 ms, reset released, a sleep of at least 20 ms.  The reset line is not
driven again: it is driven exactly twice. -/
theorem C8_power_on_sequence_timing (env : Env) (ctx : panel_nv3051d) (w : World)
    (hen : 0 ≤ env.regulator_enable (enable_calls w.trace)) :
    ∃ rest, new_events w (panel_nv3051d_prepare env ctx w).2 =
        [Event.regulator_enable (env.regulator_enable (enable_calls w.trace)),
         Event.usleep_range 2000 3000,
         Event.gpiod_set_value 1,
         Event.msleep 150,
         Event.gpiod_set_value 0,
         Event.msleep 20] ++ rest ∧
      2 * 1000 ≤ (Event.usleep_range 2000 3000).min_wait_us ∧
      150 * 1000 ≤ (Event.msleep 150).min_wait_us ∧
      20 * 1000 ≤ (Event.msleep 20).min_wait_us ∧
      sent_payloads (new_events w (panel_nv3051d_prepare env ctx w).2) = sent_payloads rest ∧
      gpio_calls rest = 0 ∧
      gpio_calls (new_events w (panel_nv3051d_prepare env ctx w).2) = 2 := by
  obtain ⟨rest, htr, hg⟩ := prepare_events env ctx w hen
  have hev := new_events_append w (panel_nv3051d_prepare env ctx w).2 _ htr
  rw [hev]
  refine ⟨rest, rfl, by decide, by decide, by decide, ?_, hg, ?_⟩
  · simp
  · simp [hg]

/-- C8 witness: `prepare` of the r36s variant from the probed state, on a
channel whose first transfer fails. -/
theorem C8_power_on_sequence_timing_witness :
    ∃ rest, new_events (panel_nv3051d_probe true)
        (panel_nv3051d_prepare (env_fail_at 0 (-5)) ⟨nv3051d_r36s_info⟩
          (panel_nv3051d_probe true)).2 =
        [Event.regulator_enable 0, Event.usleep_range 2000 3000, Event.gpiod_set_value 1,
         Event.msleep 150, Event.gpiod_set_value 0, Event.msleep 20] ++ rest ∧
      gpio_calls rest = 0 := by
  obtain ⟨rest, h1, -, -, -, -, h2, -⟩ := C8_power_on_sequence_timing (env_fail_at 0 (-5))
    ⟨nv3051d_r36s_info⟩ (panel_nv3051d_probe true) (by decide)
  exact ⟨rest, h1, h2⟩

/-- C9: round trip.  For every variant of the catalog, `prepare` from the
freshly probed controller followed at once by `unprepare`, both returning
success, passes through `On` and ends in `Off` with the resources as probe
left them: the reset line at the level it was acquired with (asserted, when
the board has one) and no enable held on the power rail, the rail having
been enabled once and disabled once. -/
theorem C9_prepare_unprepare_round_trip (env : Env) (info : nv3051d_panel_info)
    (has_reset : Bool) (hinfo : info ∈ catalog)
    (h1 : (panel_nv3051d_prepare env ⟨info⟩ (panel_nv3051d_probe has_reset)).1 = 0)
    (h2 : (panel_nv3051d_unprepare env ⟨info⟩
      (panel_nv3051d_prepare env ⟨info⟩ (panel_nv3051d_probe has_reset)).2).1 = 0) :
    (panel_nv3051d_probe has_reset).is_off ∧
    (panel_nv3051d_prepare env ⟨info⟩ (panel_nv3051d_probe has_reset)).2.is_on ∧
    (panel_nv3051d_unprepare env ⟨info⟩
      (panel_nv3051d_prepare env ⟨info⟩ (panel_nv3051d_probe has_reset)).2).2.is_off ∧
    (panel_nv3051d_unprepare env ⟨info⟩
      (panel_nv3051d_prepare env ⟨info⟩ (panel_nv3051d_probe has_reset)).2).2.reset_gpio
      = (panel_nv3051d_probe has_reset).reset_gpio ∧
    (panel_nv3051d_unprepare env ⟨info⟩
      (panel_nv3051d_prepare env ⟨info⟩ (panel_nv3051d_probe has_reset)).2).2.vdd
      = (panel_nv3051d_probe has_reset).vdd ∧
    (has_reset = true →
      (panel_nv3051d_unprepare env ⟨info⟩
        (panel_nv3051d_prepare env ⟨info⟩ (panel_nv3051d_probe has_reset)).2).2.reset_gpio
        = some 1) ∧
    enable_calls (panel_nv3051d_unprepare env ⟨info⟩
      (panel_nv3051d_prepare env ⟨info⟩ (panel_nv3051d_probe has_reset)).2).2.trace = 1 ∧
    disable_calls (panel_nv3051d_unprepare env ⟨info⟩
      (panel_nv3051d_prepare env ⟨info⟩ (panel_nv3051d_probe has_reset)).2).2.trace = 1 := by
  obtain ⟨f, hf, -⟩ := catalog_init_sequence info hinfo
  have hcalls := prepare_success_calls_ok env ⟨info⟩ f (panel_nv3051d_probe has_reset) hf
    (le_of_eq h1.symm)
  have hrun := prepare_ok env ⟨info⟩ f (panel_nv3051d_probe has_reset) hf hcalls.1 hcalls.2
  rw [hrun] at h2 ⊢
  have hsl : 0 ≤ env.dsi (transfers
      (panel_nv3051d_probe has_reset).trace + f.cmds.length + 2 + 1) := by
    by_contra hneg
    have hlt := not_le.mp hneg
    rw [unprepare_fail env ⟨info⟩ _ (by simpa [Nat.add_assoc] using hlt)] at h2
    have h3 : env.dsi (transfers
      (panel_nv3051d_probe has_reset).trace + f.cmds.length + 2 + 1) = 0 := by
      simpa [Nat.add_assoc] using h2
    omega
  rw [unprepare_ok env ⟨info⟩ _ (by simpa [Nat.add_assoc] using hsl)]
  refine ⟨rfl, rfl, rfl, ?_, rfl, ?_, ?_, ?_⟩
  · cases has_reset <;> rfl
  · intro hr; subst hr; rfl
  · simp [panel_nv3051d_probe, enable_calls_cons, Event.is_enable]
  · simp [panel_nv3051d_probe, disable_calls_cons, Event.is_disable]

/-- C9 witness: the rg353p variant with a reset line and an environment in
which every call succeeds. -/
theorem C9_prepare_unprepare_round_trip_witness :
    (panel_nv3051d_unprepare env_ok ⟨nv3051d_rg353p_info⟩
      (panel_nv3051d_prepare env_ok ⟨nv3051d_rg353p_info⟩
        (panel_nv3051d_probe true)).2).2.is_off ∧
    (panel_nv3051d_unprepare env_ok ⟨nv3051d_rg353p_info⟩
      (panel_nv3051d_prepare env_ok ⟨nv3051d_rg353p_info⟩
        (panel_nv3051d_probe true)).2).2.reset_gpio = some 1 ∧
    (panel_nv3051d_unprepare env_ok ⟨nv3051d_rg353p_info⟩
      (panel_nv3051d_prepare env_ok ⟨nv3051d_rg353p_info⟩
        (panel_nv3051d_probe true)).2).2.vdd = 0 := by
  have h := C9_prepare_unprepare_round_trip env_ok nv3051d_rg353p_info true (by decide)
    (by set_option maxRecDepth 100000 in decide)
    (by set_option maxRecDepth 100000 in decide)
  exact ⟨h.2.2.1, h.2.2.2.2.2.1 rfl, h.2.2.2.2.1⟩

/-- C10: calling unprepare twice in a row, through the panel core's
`drm_panel_unprepare`, is idempotent.  The first call, on a prepared panel
that is `On` and with enter-sleep succeeding, returns success, ends in `Off`
and leaves the panel recorded as not prepared.  The second call, made from
`Off`, returns success and is a no-op: the world is unchanged, no command is
sent, the reset line is not driven and the rail is not disabled again, so
over both calls the rail is disabled exactly once.  From `Off` the call is a
no-op in any world. -/
theorem C10_second_unprepare_is_a_noop (env : Env) (ctx : panel_nv3051d) (w : World)
    (hon : w.is_on) (hsl : 0 ≤ env.dsi (transfers w.trace + 1)) :
    (drm_panel_unprepare env ctx true w).1 = 0 ∧
    (drm_panel_unprepare env ctx true w).2.is_off ∧
    drm_panel_prepared_after_unprepare true (drm_panel_unprepare env ctx true w).1 = false ∧
    (drm_panel_unprepare env ctx
      (drm_panel_prepared_after_unprepare true (drm_panel_unprepare env ctx true w).1)
      (drm_panel_unprepare env ctx true w).2).1 = 0 ∧
    (drm_panel_unprepare env ctx
      (drm_panel_prepared_after_unprepare true (drm_panel_unprepare env ctx true w).1)
      (drm_panel_unprepare env ctx true w).2).2 = (drm_panel_unprepare env ctx true w).2 ∧
    new_events (drm_panel_unprepare env ctx true w).2
      (drm_panel_unprepare env ctx
        (drm_panel_prepared_after_unprepare true (drm_panel_unprepare env ctx true w).1)
        (drm_panel_unprepare env ctx true w).2).2 = [] ∧
    disable_calls (new_events w
      (drm_panel_unprepare env ctx
        (drm_panel_prepared_after_unprepare true (drm_panel_unprepare env ctx true w).1)
        (drm_panel_unprepare env ctx true w).2).2) = 1 ∧
    (∀ w0 : World, drm_panel_unprepare env ctx false w0 = (0, w0)) := by
  have hfirst : drm_panel_unprepare env ctx true w = panel_nv3051d_unprepare env ctx w := rfl
  have hrun := unprepare_ok env ctx w hsl
  have hflag : drm_panel_prepared_after_unprepare true
      (drm_panel_unprepare env ctx true w).1 = false := by
    rw [hfirst, hrun]; rfl
  have h1 : w.vdd = 1 := hon
  rw [hflag]
  have hsecond : ∀ w0 : World, drm_panel_unprepare env ctx false w0 = (0, w0) :=
    fun _ => rfl
  rw [hsecond]
  refine ⟨by rw [hfirst, hrun], ?_, rfl, rfl, rfl, ?_, ?_, hsecond⟩
  · rw [hfirst, hrun]
    show w.vdd - 1 = 0
    omega
  · simp [new_events]
  · rw [hfirst, hrun, new_events_append w _ _ rfl]
    rfl

/-- C10 witness: the rk2023 panel is probed and prepared, every call
succeeding, then unprepared twice in a row through the panel core. -/
theorem C10_second_unprepare_is_a_noop_witness :
    (panel_nv3051d_prepare env_ok ⟨nv3051d_rk2023_info⟩ (panel_nv3051d_probe true)).2.is_on ∧
    (drm_panel_unprepare env_ok ⟨nv3051d_rk2023_info⟩ true
      (panel_nv3051d_prepare env_ok ⟨nv3051d_rk2023_info⟩
        (panel_nv3051d_probe true)).2).2.is_off ∧
    (drm_panel_unprepare env_ok ⟨nv3051d_rk2023_info⟩
      (drm_panel_prepared_after_unprepare true
        (drm_panel_unprepare env_ok ⟨nv3051d_rk2023_info⟩ true
          (panel_nv3051d_prepare env_ok ⟨nv3051d_rk2023_info⟩
            (panel_nv3051d_probe true)).2).1)
      (drm_panel_unprepare env_ok ⟨nv3051d_rk2023_info⟩ true
        (panel_nv3051d_prepare env_ok ⟨nv3051d_rk2023_info⟩
          (panel_nv3051d_probe true)).2).2)
      = (0, (drm_panel_unprepare env_ok ⟨nv3051d_rk2023_info⟩ true
          (panel_nv3051d_prepare env_ok ⟨nv3051d_rk2023_info⟩
            (panel_nv3051d_probe true)).2).2) := by
  have hon : (panel_nv3051d_prepare env_ok ⟨nv3051d_rk2023_info⟩
      (panel_nv3051d_probe true)).2.is_on := by
    set_option maxRecDepth 100000 in decide
  have h := C10_second_unprepare_is_a_noop env_ok ⟨nv3051d_rk2023_info⟩
    (panel_nv3051d_prepare env_ok ⟨nv3051d_rk2023_info⟩ (panel_nv3051d_probe true)).2
    hon (le_refl _)
  exact ⟨hon, h.2.1, Prod.ext h.2.2.2.1 h.2.2.2.2.1⟩

/-! ## Mode tables and mode reporting -/

/-- When every duplication succeeds the loop adds, in index order, a copy of
each table entry stamped with the reported type, and runs to its end. -/
theorem get_modes_loop_ok (alloc_ok : Nat → Bool) (info : nv3051d_panel_info) :
    ∀ (left i : Nat) (c : drm_connector),
      (∀ j, i ≤ j → j < i + left → alloc_ok j = true) →
      panel_nv3051d_get_modes_loop alloc_ok info left i c =
        (0, { c with probed_modes := c.probed_modes ++
          (List.range' i left).map (fun j =>
            { info.display_modes.getD j default with
              type := reported_type info.num_modes }) }) := by
  intro left
  induction left with
  | zero => intro i c _; simp [panel_nv3051d_get_modes_loop]
  | succ left ih =>
    intro i c h
    have hi : alloc_ok i = true := h i (le_refl _) (by omega)
    have hrest : ∀ j, i + 1 ≤ j → j < i + 1 + left → alloc_ok j = true :=
      fun j h1 h2 => h j (by omega) (by omega)
    rw [panel_nv3051d_get_modes_loop, if_pos hi, ih _ _ hrest]
    by_cases h1 : info.num_modes = 1 <;>
      simp [drm_mode_probed_add, reported_type, h1, List.range'_succ, List.append_assoc]

/-- Outcome of `get_modes` when every duplication succeeds. -/
theorem get_modes_ok (alloc_ok : Nat → Bool) (ctx : panel_nv3051d) (c : drm_connector)
    (h : ∀ j, j < ctx.panel_info.num_modes → alloc_ok j = true) :
    panel_nv3051d_get_modes alloc_ok ctx c =
      ((ctx.panel_info.num_modes : Int),
        { probed_modes := c.probed_modes ++
            (List.range' 0 ctx.panel_info.num_modes).map (fun j =>
              { ctx.panel_info.display_modes.getD j default with
                type := reported_type ctx.panel_info.num_modes }),
          display_info :=
            { bpc := 8, width_mm := ctx.panel_info.width_mm,
              height_mm := ctx.panel_info.height_mm,
              bus_flags := ctx.panel_info.bus_flags } }) := by
  have hl := get_modes_loop_ok alloc_ok ctx.panel_info ctx.panel_info.num_modes 0 c
    (fun j _ hj => h j (by omega))
  simp [panel_nv3051d_get_modes, hl]

theorem catalog_cases (info : nv3051d_panel_info) (hinfo : info ∈ catalog) :
    info = nv3051d_r36s_info ∨ info = nv3051d_rg351v_info ∨
    info = nv3051d_rg353p_info ∨ info = nv3051d_rk2023_info := by
  simpa [catalog, newvision_nv3051d_of_match] using hinfo

/-- C12: the static catalog holds the four variants r36s, rg351v, rg353p and
rk2023; every variant has at least one timing set (and `num_modes` is the
length of its mode table), and every timing set of every variant satisfies
display size <= sync_start < sync_end < total on the horizontal and on the
vertical axis, all of them within the 16 bits of the C fields. -/
theorem C12_catalog_timings_ordered (info : nv3051d_panel_info) (hinfo : info ∈ catalog) :
    catalog = [nv3051d_r36s_info, nv3051d_rg351v_info, nv3051d_rg353p_info,
      nv3051d_rk2023_info] ∧
    1 ≤ info.display_modes.length ∧
    info.num_modes = info.display_modes.length ∧
    ∀ m, m ∈ info.display_modes →
      m.hdisplay ≤ m.hsync_start ∧ m.hsync_start < m.hsync_end ∧ m.hsync_end < m.htotal ∧
      m.vdisplay ≤ m.vsync_start ∧ m.vsync_start < m.vsync_end ∧ m.vsync_end < m.vtotal ∧
      m.htotal < 2 ^ 16 ∧ m.vtotal < 2 ^ 16 := by
  rcases catalog_cases info hinfo with rfl | rfl | rfl | rfl <;>
    exact ⟨rfl, by decide, rfl, by decide⟩

/-- C12 witness: the single timing set of the r36s variant. -/
theorem C12_catalog_timings_ordered_witness :
    nv3051d_r36s_info.display_modes =
      [{ hdisplay := 640, hsync_start := 680, hsync_end := 682, htotal := 762,
         vdisplay := 480, vsync_start := 498, vsync_end := 500, vtotal := 504,
         clock := 24150 }] ∧
    (680 < 682 ∧ 682 < 762 ∧ 498 < 500 ∧ 500 < 504) := by
  have h := (C12_catalog_timings_ordered nv3051d_r36s_info (by decide)).2.2.2
    { hdisplay := 640, hsync_start := 680, hsync_end := 682, htotal := 762,
      vdisplay := 480, vsync_start := 498, vsync_end := 500, vtotal := 504,
      clock := 24150 } (by decide)
  exact ⟨by decide, h.2.1, h.2.2.1, h.2.2.2.2.1, h.2.2.2.2.2.1⟩

/-- C13: for every variant of the catalog, when no mode duplication fails,
`get_modes` adds the variant's timing sets to the connector in table order,
each unchanged but for its type mask, and returns their count; a reported
timing set carries the preferred flag if and only if the variant has exactly
one timing set.  It also records the display information of the variant. -/
theorem C13_get_modes_reports_modes (alloc_ok : Nat → Bool) (info : nv3051d_panel_info)
    (connector : drm_connector) (hinfo : info ∈ catalog)
    (halloc : ∀ i, i < info.num_modes → alloc_ok i = true) :
    (panel_nv3051d_get_modes alloc_ok ⟨info⟩ connector).1 = info.display_modes.length ∧
    (panel_nv3051d_get_modes alloc_ok ⟨info⟩ connector).2.probed_modes =
      connector.probed_modes ++ info.display_modes.map (fun m =>
        { m with type := reported_type info.display_modes.length }) ∧
    (∀ m, m ∈ info.display_modes.map (fun m =>
        { m with type := reported_type info.display_modes.length }) →
      (m.is_preferred = true ↔ info.display_modes.length = 1)) ∧
    (panel_nv3051d_get_modes alloc_ok ⟨info⟩ connector).2.display_info =
      { bpc := 8, width_mm := info.width_mm, height_mm := info.height_mm,
        bus_flags := info.bus_flags } := by
  have hrun := get_modes_ok alloc_ok ⟨info⟩ connector halloc
  rw [hrun]
  rcases catalog_cases info hinfo with rfl | rfl | rfl | rfl <;>
    exact ⟨rfl, rfl, by decide, rfl⟩

/-- C13 witness: the one-mode variant r36s is reported with its single
timing set preferred, the three-mode variant rg351v with none of its three
timing sets preferred. -/
theorem C13_get_modes_reports_modes_witness :
    (panel_nv3051d_get_modes (fun _ => true) ⟨nv3051d_r36s_info⟩ connector_empty).1 = 1 ∧
    (panel_nv3051d_get_modes (fun _ => true) ⟨nv3051d_r36s_info⟩
      connector_empty).2.probed_modes.map drm_display_mode.is_preferred = [true] ∧
    (panel_nv3051d_get_modes (fun _ => true) ⟨nv3051d_rg351v_info⟩ connector_empty).1 = 3 ∧
    (panel_nv3051d_get_modes (fun _ => true) ⟨nv3051d_rg351v_info⟩
      connector_empty).2.probed_modes.map drm_display_mode.is_preferred
      = [false, false, false] := by
  have h1 := C13_get_modes_reports_modes (fun _ => true) nv3051d_r36s_info connector_empty
    (by decide) (fun _ _ => rfl)
  have h3 := C13_get_modes_reports_modes (fun _ => true) nv3051d_rg351v_info connector_empty
    (by decide) (fun _ _ => rfl)
  refine ⟨h1.1, ?_, h3.1, ?_⟩
  · rw [h1.2.1]; decide
  · rw [h3.2.1]; decide

/-! ## Register pages and forced teardown -/

/-- Channel traffic of a successful `prepare`: the init sequence, then the
standard exit-sleep and display-on commands. -/
theorem prepare_ok_sent_payloads (env : Env) (ctx : panel_nv3051d) (f : InitSeqFn)
    (w : World) (hf : ctx.panel_info.init_sequence = some f)
    (hsucc : (panel_nv3051d_prepare env ctx w).1 = 0) :
    sent_payloads (new_events w (panel_nv3051d_prepare env ctx w).2) =
      f.cmds ++ [[MIPI_DCS_EXIT_SLEEP_MODE], [MIPI_DCS_SET_DISPLAY_ON]] := by
  have hcalls := prepare_success_calls_ok env ctx f w hf (le_of_eq hsucc.symm)
  have hrun := prepare_ok env ctx f w hf hcalls.1 hcalls.2
  have hev := new_events_append w (panel_nv3051d_prepare env ctx w).2 _ (by rw [hrun])
  rw [hev]
  simp [sent_payloads]

/-- C14: in both vendor init sequences register-page selection is well
formed: every write to register 0xFF is part of a consecutive triple
`FF 30`, `FF 52`, `FF n` with `n` in 0..3; the sequence begins with such a
triple; the last triple selects page 0 and no write to 0xFF follows it.  In
a successful `prepare` the channel traffic is the init sequence followed by
the standard exit-sleep and display-on commands, so these two also come
after the last page select, which selected page 0. -/
theorem C14_page_selection_well_formed (f : InitSeqFn) :
    page_writes_well_formed f.cmds = true ∧
    begins_with_page_select f.cmds = true ∧
    (∃ post, last_page_select f.cmds = some (0, post) ∧
      ∀ d, d ∈ post → writes_page_register d = false) ∧
    (∀ (env : Env) (ctx : panel_nv3051d) (w : World),
      ctx.panel_info.init_sequence = some f →
      (panel_nv3051d_prepare env ctx w).1 = 0 →
        ∃ post,
          last_page_select (sent_payloads (new_events w (panel_nv3051d_prepare env ctx w).2))
            = some (0, post ++ [[MIPI_DCS_EXIT_SLEEP_MODE], [MIPI_DCS_SET_DISPLAY_ON]]) ∧
          ∀ d, d ∈ post ++ [[MIPI_DCS_EXIT_SLEEP_MODE], [MIPI_DCS_SET_DISPLAY_ON]] →
            writes_page_register d = false) := by
  cases f
  · refine ⟨by set_option maxRecDepth 100000 in decide, by decide,
      ⟨[[0x36, 0x02], [0x3A, 0x70]], by set_option maxRecDepth 100000 in decide, by decide⟩,
      ?_⟩
    intro env ctx w hf hsucc
    rw [prepare_ok_sent_payloads env ctx _ w hf hsucc]
    exact ⟨[[0x36, 0x02], [0x3A, 0x70]], by set_option maxRecDepth 100000 in decide,
      by decide⟩
  · refine ⟨by set_option maxRecDepth 100000 in decide, by decide,
      ⟨[[0x36, 0x02], [0x11, 0x00], [0x29, 0x00], [0x11], [0x29]],
        by set_option maxRecDepth 100000 in decide, by decide⟩, ?_⟩
    intro env ctx w hf hsucc
    rw [prepare_ok_sent_payloads env ctx _ w hf hsucc]
    exact ⟨[[0x36, 0x02], [0x11, 0x00], [0x29, 0x00], [0x11], [0x29]],
      by set_option maxRecDepth 100000 in decide, by decide⟩

/-- C14 witness: a successful `prepare` of the r36s variant from the probed
state; the last page select of its channel traffic is page 0 and is followed
by the five trailing commands of the init sequence and the two standard
commands. -/
theorem C14_page_selection_well_formed_witness :
    page_writes_well_formed panel_nv3051d_init_sequence_r36s_cmds = true ∧
    ∃ post,
      last_page_select (sent_payloads (new_events (panel_nv3051d_probe true)
        (panel_nv3051d_prepare env_ok ⟨nv3051d_r36s_info⟩ (panel_nv3051d_probe true)).2))
        = some (0, post ++ [[MIPI_DCS_EXIT_SLEEP_MODE], [MIPI_DCS_SET_DISPLAY_ON]]) := by
  have h := C14_page_selection_well_formed InitSeqFn.panel_nv3051d_init_sequence_r36s
  obtain ⟨post, hp, -⟩ := h.2.2.2 env_ok ⟨nv3051d_r36s_info⟩ (panel_nv3051d_probe true) rfl
    (by set_option maxRecDepth 100000 in decide)
  exact ⟨h.1, post, hp⟩

/-- C11 (amended): forced teardown returns nothing, so no error is
propagated; it calls the panel core's unprepare and then its disable, which
reaches none of the driver's resources, and it never disables the power rail
itself.  With the panel prepared and enter-sleep succeeding, `unprepare`
runs to its end: reset asserted, rail disabled once.  With the panel
prepared and enter-sleep failing, `unprepare` aborts and teardown ends with
the rail still enabled and the reset line not driven.  With the panel not
prepared, teardown leaves everything as it was.  Device removal does the
same as shutdown, and the code `drm_panel_disable` returns changes
nothing. -/
theorem C11_teardown_power_follows_unprepare (env : Env) (ctx : panel_nv3051d)
    (disable_ret detach_ret : Int) (w : World) :
    (∀ prepared, panel_nv3051d_remove env ctx prepared disable_ret detach_ret w
      = panel_nv3051d_shutdown env ctx prepared disable_ret w) ∧
    (∀ prepared r, panel_nv3051d_shutdown env ctx prepared r w
      = panel_nv3051d_shutdown env ctx prepared disable_ret w) ∧
    (0 ≤ env.dsi (transfers w.trace + 1) →
      new_events w (panel_nv3051d_shutdown env ctx true disable_ret w) =
        [Event.dsi_transfer [MIPI_DCS_SET_DISPLAY_OFF] (env.dsi (transfers w.trace)),
         Event.msleep 20,
         Event.dsi_transfer [MIPI_DCS_ENTER_SLEEP_MODE] (env.dsi (transfers w.trace + 1)),
         Event.usleep_range 10000 15000,
         Event.gpiod_set_value 1,
         Event.regulator_disable] ∧
      (panel_nv3051d_shutdown env ctx true disable_ret w).vdd = w.vdd - 1 ∧
      disable_calls (new_events w (panel_nv3051d_shutdown env ctx true disable_ret w)) = 1) ∧
    (env.dsi (transfers w.trace + 1) < 0 →
      new_events w (panel_nv3051d_shutdown env ctx true disable_ret w) =
        [Event.dsi_transfer [MIPI_DCS_SET_DISPLAY_OFF] (env.dsi (transfers w.trace)),
         Event.msleep 20,
         Event.dsi_transfer [MIPI_DCS_ENTER_SLEEP_MODE] (env.dsi (transfers w.trace + 1))] ∧
      (panel_nv3051d_shutdown env ctx true disable_ret w).vdd = w.vdd ∧
      (panel_nv3051d_shutdown env ctx true disable_ret w).reset_gpio = w.reset_gpio ∧
      disable_calls (new_events w (panel_nv3051d_shutdown env ctx true disable_ret w)) = 0 ∧
      gpio_calls (new_events w (panel_nv3051d_shutdown env ctx true disable_ret w)) = 0 ∧
      (w.is_on → ¬ (panel_nv3051d_shutdown env ctx true disable_ret w).is_off)) ∧
    panel_nv3051d_shutdown env ctx false disable_ret w = w := by
  refine ⟨fun _ => rfl, fun _ _ => rfl, ?_, ?_, rfl⟩
  · intro hsl
    have hrun : panel_nv3051d_shutdown env ctx true disable_ret w
        = (panel_nv3051d_unprepare env ctx w).2 := rfl
    rw [hrun, unprepare_ok env ctx w hsl]
    refine ⟨new_events_append w _ _ rfl, rfl, ?_⟩
    rw [new_events_append w _ _ rfl]; rfl
  · intro hsl
    have hrun : panel_nv3051d_shutdown env ctx true disable_ret w
        = (panel_nv3051d_unprepare env ctx w).2 := rfl
    rw [hrun, unprepare_fail env ctx w hsl]
    refine ⟨new_events_append w _ _ rfl, rfl, rfl, ?_, ?_, ?_⟩
    · rw [new_events_append w _ _ rfl]; rfl
    · rw [new_events_append w _ _ rfl]; rfl
    · intro hon
      have h1 : w.vdd = 1 := hon
      show ¬ (w.vdd = 0)
      omega

/-- C11 witness: shutdown of a prepared panel that is `On`, once with every
send succeeding and once with enter-sleep failing with code -5. -/
theorem C11_teardown_power_follows_unprepare_witness :
    (panel_nv3051d_shutdown env_ok ⟨nv3051d_r36s_info⟩ true 0
      { reset_gpio := some 0, vdd := 1, trace := [] }).is_off ∧
    ¬ (panel_nv3051d_shutdown (env_fail_at 1 (-5)) ⟨nv3051d_r36s_info⟩ true 0
      { reset_gpio := some 0, vdd := 1, trace := [] }).is_off := by
  have h1 := (C11_teardown_power_follows_unprepare env_ok ⟨nv3051d_r36s_info⟩ 0 0
    { reset_gpio := some 0, vdd := 1, trace := [] }).2.2.1 (by decide)
  have h2 := (C11_teardown_power_follows_unprepare (env_fail_at 1 (-5)) ⟨nv3051d_r36s_info⟩ 0 0
    { reset_gpio := some 0, vdd := 1, trace := [] }).2.2.2.1 (by decide)
  exact ⟨h1.2.1, h2.2.2.2.2.2 (by decide)⟩

/-- C11 counterexample: the rg353p panel is probed and prepared, every call
succeeding (transfers 0 to 184), and is then shut down with the display-off
send (transfer 185) succeeding and the enter-sleep send (transfer 186)
failing with code -5.  Teardown ends after that failing send: the rail is
never disabled and stays enabled, the panel is not `Off`. -/
theorem C11_shutdown_leaves_rail_enabled :
    (panel_nv3051d_prepare (env_fail_at 186 (-5)) ⟨nv3051d_rg353p_info⟩
      (panel_nv3051d_probe true)).1 = 0 ∧
    new_events
      (panel_nv3051d_prepare (env_fail_at 186 (-5)) ⟨nv3051d_rg353p_info⟩
        (panel_nv3051d_probe true)).2
      (panel_nv3051d_shutdown (env_fail_at 186 (-5)) ⟨nv3051d_rg353p_info⟩ true 0
        (panel_nv3051d_prepare (env_fail_at 186 (-5)) ⟨nv3051d_rg353p_info⟩
          (panel_nv3051d_probe true)).2)
      = [Event.dsi_transfer [MIPI_DCS_SET_DISPLAY_OFF] 0,
         Event.msleep 20,
         Event.dsi_transfer [MIPI_DCS_ENTER_SLEEP_MODE] (-5)] ∧
    disable_calls (panel_nv3051d_shutdown (env_fail_at 186 (-5)) ⟨nv3051d_rg353p_info⟩ true 0
      (panel_nv3051d_prepare (env_fail_at 186 (-5)) ⟨nv3051d_rg353p_info⟩
        (panel_nv3051d_probe true)).2).trace = 0 ∧
    (panel_nv3051d_shutdown (env_fail_at 186 (-5)) ⟨nv3051d_rg353p_info⟩ true 0
      (panel_nv3051d_prepare (env_fail_at 186 (-5)) ⟨nv3051d_rg353p_info⟩
        (panel_nv3051d_probe true)).2).vdd = 1 ∧
    ¬ (panel_nv3051d_shutdown (env_fail_at 186 (-5)) ⟨nv3051d_rg353p_info⟩ true 0
      (panel_nv3051d_prepare (env_fail_at 186 (-5)) ⟨nv3051d_rg353p_info⟩
        (panel_nv3051d_probe true)).2).is_off := by
  set_option maxRecDepth 100000 in decide

end NV3051D
